import Mathlib

/-! # KnxDevice bus coupler: a shallow embedding

Embedding of `KnxBusCoupler.h`, `KnxTpUart.h` and `StKnxCoupler.h`.

* Enumerations become inductive types; `toNat` gives the C++ enumerator value,
  so that the ordinal comparisons of the source (`_rx.state > RX_IDLE_...`) are
  comparisons of natural numbers.
* `byte` and `word` values are natural numbers.
* Function pointers are natural numbers (their address); `NULL` is `0`.
* A member function that mutates the object returns the pair
  (returned value, object after the call).
-/

namespace KnxDevice

/-! ## KnxBusCoupler.h -/

/-- Events sent to the application layer (`enum e_KnxBusCouplerEvent`). -/
inductive e_KnxBusCouplerEvent where
  | BUSCOUPLER_EVENT_RESET
  | BUSCOUPLER_EVENT_RECEIVED_EIB_TELEGRAM
  | BUSCOUPLER_EVENT_EIB_TELEGRAM_RECEPTION_ERROR
  | BUSCOUPLER_EVENT_STATE_INDICATION
  deriving DecidableEq, Repr

/-- Acknowledge values following a telegram sending (`enum e_BusCouplerTxAck`). -/
inductive e_BusCouplerTxAck where
  | ACK_RESPONSE
  | NACK_RESPONSE
  | NO_ANSWER_TIMEOUT
  | BUSCOUPLER_RESET_RESPONSE
  deriving DecidableEq, Repr

/-- Working modes (`enum type_KnxBusCouplerMode`). -/
inductive type_KnxBusCouplerMode where
  | NORMAL
  | BUS_MONITOR
  deriving DecidableEq, Repr

/-- Pointer to the events callback function (`type_EventCallbackFctPtr`). -/
abbrev type_EventCallbackFctPtr := Nat

/-- Pointer to the TX acknowledge callback function (`type_AckCallbackFctPtr`). -/
abbrev type_AckCallbackFctPtr := Nat

/-- Pointer to the external transmit callback (`type_TransmitCallbackFctPtr`). -/
abbrev type_TransmitCallbackFctPtr := Nat

/-- The null pointer. -/
def NULL : Nat := 0

/-- RX states (`enum e_BusCouplerRxState`). -/
inductive e_BusCouplerRxState where
  | RX_RESET
  | RX_STOPPED
  | RX_INIT
  | RX_IDLE_WAITING_FOR_CTRL_FIELD
  | RX_EIB_TELEGRAM_RECEPTION_STARTED
  | RX_EIB_TELEGRAM_RECEPTION_ADDRESSED
  | RX_EIB_TELEGRAM_RECEPTION_LENGTH_INVALID
  | RX_EIB_TELEGRAM_RECEPTION_NOT_ADDRESSED
  deriving DecidableEq, Repr

/-- Enumerator value of an RX state (`RX_RESET = 0`, then increasing by one). -/
def e_BusCouplerRxState.toNat : e_BusCouplerRxState → Nat
  | .RX_RESET => 0
  | .RX_STOPPED => 1
  | .RX_INIT => 2
  | .RX_IDLE_WAITING_FOR_CTRL_FIELD => 3
  | .RX_EIB_TELEGRAM_RECEPTION_STARTED => 4
  | .RX_EIB_TELEGRAM_RECEPTION_ADDRESSED => 5
  | .RX_EIB_TELEGRAM_RECEPTION_LENGTH_INVALID => 6
  | .RX_EIB_TELEGRAM_RECEPTION_NOT_ADDRESSED => 7

/-- TX states (`enum e_BusCouplerTxState`). -/
inductive e_BusCouplerTxState where
  | TX_RESET
  | TX_STOPPED
  | TX_INIT
  | TX_IDLE
  | TX_TELEGRAM_SENDING_ONGOING
  | TX_WAITING_ACK
  deriving DecidableEq, Repr

/-- Enumerator value of a TX state (`TX_RESET = 0`, then increasing by one). -/
def e_BusCouplerTxState.toNat : e_BusCouplerTxState → Nat
  | .TX_RESET => 0
  | .TX_STOPPED => 1
  | .TX_INIT => 2
  | .TX_IDLE => 3
  | .TX_TELEGRAM_SENDING_ONGOING => 4
  | .TX_WAITING_ACK => 5

/-- Modelled from the spec: the Telegram abstraction (`KnxTelegram.h` is not among the
sources). The spec describes it as "an addressable byte sequence" that the core "reads and
writes as an opaque addressable byte buffer"; it is the list of its bytes. -/
structure KnxTelegram where
  bytes : List Nat
  deriving DecidableEq, Repr

/-- Modelled from the spec: the ComObject abstraction (`KnxComObject.h` is not among the
sources): "has an address, a communication-enabled flag, and a stable index in its attaching
list". The index is the position in the list. -/
structure KnxComObject where
  addr : Nat
  comm : Bool
  deriving DecidableEq, Repr

/-- Reception structure (`type_buscoupler_rx`). -/
structure type_buscoupler_rx where
  state : e_BusCouplerRxState
  receivedTelegram : KnxTelegram
  addressedComObjectIndex : Nat
  deriving DecidableEq, Repr

/-- Transmission structure (`type_buscoupler_tx`); `sentTelegram` is a nullable pointer. -/
structure type_buscoupler_tx where
  state : e_BusCouplerTxState
  sentTelegram : Option KnxTelegram
  ackFctPtr : type_AckCallbackFctPtr
  nbRemainingBytes : Nat
  txByteIndex : Nat
  deriving DecidableEq, Repr

/-- Value returned on success (`#define KNX_BUSCOUPLER_OK`). -/
def KNX_BUSCOUPLER_OK : Nat := 0

/-- Generic error code (`#define KNX_BUSCOUPLER_ERROR`). -/
def KNX_BUSCOUPLER_ERROR : Nat := 255

/-- Error code of a call outside the init state (`#define KNX_BUSCOUPLER_ERROR_NOT_INIT_STATE`). -/
def KNX_BUSCOUPLER_ERROR_NOT_INIT_STATE : Nat := 254

def KNX_BUSCOUPLER_ERROR_NULL_EVT_CALLBACK_FCT : Nat := 253
def KNX_BUSCOUPLER_ERROR_NULL_ACK_CALLBACK_FCT : Nat := 252

/-! ## KnxTpUart.h -/

def TPUART_RESET_REQ : Nat := 0x01
def TPUART_STATE_REQ : Nat := 0x02
def TPUART_SET_ADDR_REQ : Nat := 0x28
def TPUART_DATA_START_CONTINUE_REQ : Nat := 0x80
def TPUART_DATA_END_REQ : Nat := 0x40
def TPUART_ACTIVATEBUSMON_REQ : Nat := 0x05
def TPUART_RX_ACK_SERVICE_ADDRESSED : Nat := 0x11
def TPUART_RX_ACK_SERVICE_NOT_ADDRESSED : Nat := 0x10

def TPUART_RESET_INDICATION : Nat := 0x03
def TPUART_DATA_CONFIRM_SUCCESS : Nat := 0x8B
def TPUART_DATA_CONFIRM_FAILED : Nat := 0x0B
def TPUART_STATE_INDICATION : Nat := 0x07
def TPUART_STATE_INDICATION_MASK : Nat := 0x07
def EIB_CONTROL_FIELD_PATTERN_MASK : Nat := 0b11010011
def EIB_CONTROL_FIELD_VALID_PATTERN : Nat := 0b10010000

def TPUART_STATE_INDICATION_SLAVE_COLLISION_MASK : Nat := 0x80
def TPUART_STATE_INDICATION_RECEIVE_ERROR_MASK : Nat := 0x40
def TPUART_STATE_INDICATION_TRANSMIT_ERROR_MASK : Nat := 0x20
def TPUART_STATE_INDICATION_PROTOCOL_ERROR_MASK : Nat := 0x10
def TPUART_STATE_INDICATION_TEMP_WARNING_MASK : Nat := 0x08

def KNX_RESETRESP_TIMEOUT : Nat := 1000
def KNX_RESET_ATTEMPTS : Nat := 10

/-- Data members of `class KnxTpUart`. The serial port `_serial` is the outside world: the
bytes read from it and written to it are arguments and results of the operations. -/
structure KnxTpUart where
  _physicalAddr : Nat
  _mode : type_KnxBusCouplerMode
  _rx : type_buscoupler_rx
  _tx : type_buscoupler_tx
  _evtCallbackFct : type_EventCallbackFctPtr
  _comObjectsList : List KnxComObject
  _assignedComObjectsNb : Nat
  _orderedIndexTable : List Nat
  _stateIndication : Nat
  _resetRespTimeout : Nat
  _resetAttempts : Nat
  deriving DecidableEq, Repr

/-- Body of `KnxTpUart::SetEvtCallback`. -/
def KnxTpUart.SetEvtCallback (s : KnxTpUart) (evtCallbackFct : type_EventCallbackFctPtr) :
    Nat × KnxTpUart :=
  if evtCallbackFct = NULL then (KNX_BUSCOUPLER_ERROR, s)
  else if s._rx.state ≠ .RX_INIT ∨ s._tx.state ≠ .TX_INIT then
    (KNX_BUSCOUPLER_ERROR_NOT_INIT_STATE, s)
  else (KNX_BUSCOUPLER_OK, { s with _evtCallbackFct := evtCallbackFct })

/-- Body of `KnxTpUart::SetAckCallback`. -/
def KnxTpUart.SetAckCallback (s : KnxTpUart) (ackFctPtr : type_AckCallbackFctPtr) :
    Nat × KnxTpUart :=
  if ackFctPtr = NULL then (KNX_BUSCOUPLER_ERROR, s)
  else if s._rx.state ≠ .RX_INIT ∨ s._tx.state ≠ .TX_INIT then
    (KNX_BUSCOUPLER_ERROR_NOT_INIT_STATE, s)
  else (KNX_BUSCOUPLER_OK, { s with _tx := { s._tx with ackFctPtr := ackFctPtr } })

/-- Body of `KnxTpUart::GetStateIndication`. -/
def KnxTpUart.GetStateIndication (s : KnxTpUart) : Nat := s._stateIndication

/-- Body of `KnxTpUart::GetReceivedTelegram`. -/
def KnxTpUart.GetReceivedTelegram (s : KnxTpUart) : KnxTelegram := s._rx.receivedTelegram

/-- Body of `KnxTpUart::GetTargetedComObjectIndex`. -/
def KnxTpUart.GetTargetedComObjectIndex (s : KnxTpUart) : Nat := s._rx.addressedComObjectIndex

/-- Body of `KnxTpUart::IsActive`. -/
def KnxTpUart.IsActive (s : KnxTpUart) : Bool :=
  if s._rx.state.toNat > e_BusCouplerRxState.RX_IDLE_WAITING_FOR_CTRL_FIELD.toNat then true
  else if s._tx.state.toNat > e_BusCouplerTxState.TX_IDLE.toNat then true
  else false

/-! ## StKnxCoupler.h -/

/-- Data members of `class StKnxCoupler`. -/
structure StKnxCoupler where
  _extTxCb : type_TransmitCallbackFctPtr
  _physicalAddr : Nat
  _mode : type_KnxBusCouplerMode
  _rx : type_buscoupler_rx
  _tx : type_buscoupler_tx
  _evtCallbackFct : type_EventCallbackFctPtr
  _comObjectsList : List KnxComObject
  _assignedComObjectsNb : Nat
  _orderedIndexTable : List Nat
  _stateIndication : Nat
  deriving DecidableEq, Repr

/-- Body of `StKnxCoupler::SetEvtCallback`. -/
def StKnxCoupler.SetEvtCallback (s : StKnxCoupler) (evtCallbackFct : type_EventCallbackFctPtr) :
    Nat × StKnxCoupler :=
  if evtCallbackFct = NULL then (KNX_BUSCOUPLER_ERROR, s)
  else if s._rx.state ≠ .RX_INIT ∨ s._tx.state ≠ .TX_INIT then
    (KNX_BUSCOUPLER_ERROR_NOT_INIT_STATE, s)
  else (KNX_BUSCOUPLER_OK, { s with _evtCallbackFct := evtCallbackFct })

/-- Body of `StKnxCoupler::SetAckCallback`. -/
def StKnxCoupler.SetAckCallback (s : StKnxCoupler) (ackFctPtr : type_AckCallbackFctPtr) :
    Nat × StKnxCoupler :=
  if ackFctPtr = NULL then (KNX_BUSCOUPLER_ERROR, s)
  else if s._rx.state ≠ .RX_INIT ∨ s._tx.state ≠ .TX_INIT then
    (KNX_BUSCOUPLER_ERROR_NOT_INIT_STATE, s)
  else (KNX_BUSCOUPLER_OK, { s with _tx := { s._tx with ackFctPtr := ackFctPtr } })

/-- Body of `StKnxCoupler::GetStateIndication`. -/
def StKnxCoupler.GetStateIndication (s : StKnxCoupler) : Nat := s._stateIndication

/-- Body of `StKnxCoupler::GetReceivedTelegram`. -/
def StKnxCoupler.GetReceivedTelegram (s : StKnxCoupler) : KnxTelegram := s._rx.receivedTelegram

/-- Body of `StKnxCoupler::GetTargetedComObjectIndex`. -/
def StKnxCoupler.GetTargetedComObjectIndex (s : StKnxCoupler) : Nat :=
  s._rx.addressedComObjectIndex

/-- Body of `StKnxCoupler::IsActive`. -/
def StKnxCoupler.IsActive (s : StKnxCoupler) : Bool :=
  if s._rx.state.toNat > e_BusCouplerRxState.RX_IDLE_WAITING_FOR_CTRL_FIELD.toNat then true
  else if s._tx.state.toNat > e_BusCouplerTxState.TX_IDLE.toNat then true
  else false

/-! ## Operations declared in the headers whose bodies are not among the sources

`KnxTpUart.cpp` is not part of the sources: `AttachComObjectsList`, `IsAddressAssigned`,
`SendTelegram`, `RXTask`, `TXTask` and `Reset` are declared in `KnxTpUart.h` only. They are
modelled from the natural-language specification, section by section. -/

/-- Modelled from the spec: what the engine does to the outside world (the callbacks exposed to
the application, §6, and the bytes written to the transport); the bodies that perform these
calls are in the missing `KnxTpUart.cpp`. A callback call records the pointer that is called. -/
inductive Effect where
  | event (fct : type_EventCallbackFctPtr) (e : e_KnxBusCouplerEvent)
  | ack (fct : type_AckCallbackFctPtr) (a : e_BusCouplerTxAck)
  | write (b : Nat)
  deriving DecidableEq, Repr

/-- The effect is a call of the acknowledgment callback. -/
def Effect.isAck : Effect → Bool
  | .ack _ _ => true
  | _ => false

/-- The effect is a call of the event callback. -/
def Effect.isEvent : Effect → Bool
  | .event _ _ => true
  | _ => false

/-- Modelled from the spec: the boundary to the Telegram abstraction (§1, §6: "the core calls
into the Telegram abstraction for field get/set and validity checks"), whose layout and
validity rules are out of the spec's scope: the maximum telegram size, the validity check, the
source address setter, and the total length declared by a telegram's length byte. -/
structure TelegramOps where
  maxSize : Nat
  isValid : KnxTelegram → Bool
  setSourceAddress : KnxTelegram → Nat → KnxTelegram
  declaredLength : Nat → Nat

/-! ### §4.1 Address Table Builder -/

/-- Modelled from the spec: the address accessor of the ComObject abstraction (§6, "address
... reads"; `KnxComObject.h` is not among the sources), for the object at index `i` of the
list (0 outside the list). -/
def comObjectAddr (objs : List KnxComObject) (i : Nat) : Nat :=
  match objs[i]? with
  | some o => o.addr
  | none => 0

/-- Modelled from the spec: the enabled-flag accessor of the ComObject abstraction (§6;
`KnxComObject.h` is not among the sources): the object at index `i` of the list exists and has
the communication flag set. -/
def comObjectEnabled (objs : List KnxComObject) (i : Nat) : Bool :=
  match objs[i]? with
  | some o => o.comm
  | none => false

/-- Modelled from the spec: one insertion of §4.1 of the missing `AttachComObjectsList`:
"inserts its index into the table keyed by address, applying the last-wins rule on address
collision": the entry with the same address is replaced, otherwise the index is added. -/
def insertLastWins (key : Nat → Nat) (i : Nat) : List Nat → List Nat
  | [] => [i]
  | j :: rest => if key j = key i then i :: rest else j :: insertLastWins key i rest

/-- Modelled from the spec: the insertions of §4.1 of the missing `AttachComObjectsList` for
the first `m` objects of the list: "for each object with the communication-enabled flag set,
inserts its index into the table". -/
def collectIndexes (objs : List KnxComObject) (m : Nat) : List Nat :=
  (List.range m).foldl
    (fun table i =>
      if comObjectEnabled objs i then insertLastWins (comObjectAddr objs) i table else table)
    []

/-- Modelled from the spec: the OrderedIndexTable of §3/§4.1 built by the missing
`AttachComObjectsList`: the collected indexes, and then "sorts by address ascending". -/
def buildOrderedIndexTable (objs : List KnxComObject) : List Nat :=
  (collectIndexes objs objs.length).insertionSort
    (fun a b => comObjectAddr objs a ≤ comObjectAddr objs b)

/-- Modelled from the spec: `KnxTpUart::AttachComObjectsList` (declared in `KnxTpUart.h`, body
missing), §4.1: fails outside the INIT lifecycle phase, else replaces the object-list view and
rebuilds the table in full. `listSize` is the length of the list. -/
def KnxTpUart.AttachComObjectsList (s : KnxTpUart) (comObjectsList : List KnxComObject) :
    Nat × KnxTpUart :=
  if s._rx.state ≠ .RX_INIT ∨ s._tx.state ≠ .TX_INIT then
    (KNX_BUSCOUPLER_ERROR_NOT_INIT_STATE, s)
  else
    (KNX_BUSCOUPLER_OK,
      { s with
        _comObjectsList := comObjectsList
        _orderedIndexTable := buildOrderedIndexTable comObjectsList
        _assignedComObjectsNb := (buildOrderedIndexTable comObjectsList).length })

/-- Modelled from the spec: the lookup of §4.1, "binary search over the sorted table", of the
missing `IsAddressAssigned`: search of `addr` among the entries `lo ≤ p < hi` of the table;
`fuel` bounds the number of halvings. -/
def binarySearch (key : Nat → Nat) (table : List Nat) (addr : Nat) : Nat → Nat → Nat → Option Nat
  | 0, _, _ => none
  | fuel + 1, lo, hi =>
    if lo < hi then
      match table[(lo + hi) / 2]? with
      | none => none
      | some j =>
        if key j = addr then some j
        else if key j < addr then binarySearch key table addr fuel ((lo + hi) / 2 + 1) hi
        else binarySearch key table addr fuel lo ((lo + hi) / 2)
    else none

/-- Modelled from the spec: `KnxTpUart::IsAddressAssigned(word addr, byte &index)` (declared in
`KnxTpUart.h`, body missing), the `findByAddress` of §4.1. The result is the returned boolean
and the value of the `index` parameter after the call: "if yes, then update index parameter
with the index (in the list) of the targeted com object and return true else return false". -/
def KnxTpUart.IsAddressAssigned (s : KnxTpUart) (addr : Nat) (index : Nat) : Bool × Nat :=
  match binarySearch (comObjectAddr s._comObjectsList) s._orderedIndexTable addr
      s._assignedComObjectsNb 0 s._assignedComObjectsNb with
  | some j => (true, j)
  | none => (false, index)

/-! ### §6 Control-field validity -/

/-- Modelled from the spec: the control-field test of the missing `RXTask` body (§6: "a received
first byte must match a fixed 8-bit mask/pattern"); mask and pattern are the macros of
`KnxTpUart.h`. -/
def isValidControlField (b : Nat) : Bool :=
  b &&& EIB_CONTROL_FIELD_PATTERN_MASK == EIB_CONTROL_FIELD_VALID_PATTERN

/-- Modelled from the spec: the state-indication test of the missing `RXTask` body (§6: "state
indication (low 3 bits carry status code ...)"); mask and code are the macros of `KnxTpUart.h`. -/
def isStateIndication (b : Nat) : Bool :=
  b &&& TPUART_STATE_INDICATION_MASK == TPUART_STATE_INDICATION

/-! ### §4.3 Transmission Engine -/

/-- Modelled from the spec: `KnxTpUart::SendTelegram` (declared in `KnxTpUart.h`, body
missing), §4.3: "only accepted from IDLE; the telegram's source address field is overridden
with the coupler's own physical address before transmission; on acceptance, state moves to
TELEGRAM_SENDING_ONGOING and the byte cursor is reset to the telegram start"; §6: "`send`
returns OK or ERROR (busy or malformed telegram)". The result is the returned code, the object
after the call and the caller's telegram after the call (it is passed by reference). -/
def KnxTpUart.SendTelegram (T : TelegramOps) (s : KnxTpUart) (sentTelegram : KnxTelegram) :
    Nat × KnxTpUart × KnxTelegram :=
  if s._tx.state ≠ .TX_IDLE then (KNX_BUSCOUPLER_ERROR, s, sentTelegram)
  else if T.isValid sentTelegram = false then (KNX_BUSCOUPLER_ERROR, s, sentTelegram)
  else
    (KNX_BUSCOUPLER_OK,
      { s with
        _tx :=
          { s._tx with
            state := .TX_TELEGRAM_SENDING_ONGOING
            sentTelegram := some (T.setSourceAddress sentTelegram s._physicalAddr)
            nbRemainingBytes := (T.setSourceAddress sentTelegram s._physicalAddr).bytes.length
            txByteIndex := 0 } },
      T.setSourceAddress sentTelegram s._physicalAddr)

/-- Modelled from the spec: resolution of a pending acknowledgment, §4.3 (part of the missing
`RXTask`/`TXTask` bodies): "The resolved outcome is delivered exactly once to the registered
acknowledgment callback, and the state returns to IDLE regardless of outcome". Outside
WAITING_ACK there is nothing to resolve. -/
def resolveTxOutcome (s : KnxTpUart) (a : e_BusCouplerTxAck) : KnxTpUart × List Effect :=
  if s._tx.state = .TX_WAITING_ACK then
    ({ s with _tx := { s._tx with state := .TX_IDLE } }, [.ack s._tx.ackFctPtr a])
  else (s, [])

/-- Modelled from the spec: `KnxTpUart::TXTask` (declared in `KnxTpUart.h`, body missing),
§4.3. In TELEGRAM_SENDING_ONGOING one telegram byte is written per poll as two characters, a
"continue" command carrying the byte or the "end" command for the last byte, and after the last
byte the state is WAITING_ACK. In WAITING_ACK, "absence of any confirmation within the
operation's allotted time yields NO_ANSWER_TIMEOUT": the core has no timing source of its own
(§1), so whether the allotted time has elapsed is the argument `ackTimeElapsed`. -/
def KnxTpUart.TXTask (s : KnxTpUart) (ackTimeElapsed : Bool) : KnxTpUart × List Effect :=
  match s._tx.state with
  | .TX_WAITING_ACK =>
    if ackTimeElapsed then resolveTxOutcome s .NO_ANSWER_TIMEOUT else (s, [])
  | .TX_TELEGRAM_SENDING_ONGOING =>
    match s._tx.sentTelegram with
    | none => (s, [])
    | some t =>
      if s._tx.nbRemainingBytes ≤ 1 then
        ({ s with
            _tx :=
              { s._tx with
                state := .TX_WAITING_ACK
                nbRemainingBytes := 0
                txByteIndex := s._tx.txByteIndex + 1 } },
          [.write TPUART_DATA_END_REQ, .write (t.bytes.getD s._tx.txByteIndex 0)])
      else
        ({ s with
            _tx :=
              { s._tx with
                nbRemainingBytes := s._tx.nbRemainingBytes - 1
                txByteIndex := s._tx.txByteIndex + 1 } },
          [.write TPUART_DATA_START_CONTINUE_REQ, .write (t.bytes.getD s._tx.txByteIndex 0)])
  | _ => (s, [])

/-! ### §4.2 Reception Engine -/

/-- Modelled from the spec: the reception engine of the missing `RXTask` body: the coupler
object together with the working storage of the telegram in progress (the bytes accumulated so
far and the index matched at address resolution). The RX context of the object is written when
the telegram is complete (§4.2: "the RX context is finalized"), so that "partial/corrupt
telegrams must not be exposed as complete". -/
structure RxEngine where
  dev : KnxTpUart
  telegram : List Nat
  matchedIndex : Nat
  deriving DecidableEq, Repr

/-- The coupler object with its rx state replaced. -/
def KnxTpUart.withRxState (s : KnxTpUart) (st : e_BusCouplerRxState) : KnxTpUart :=
  { s with _rx := { s._rx with state := st } }

/-- Modelled from the spec: a device-reset indication, §4.2 and §4.3 (missing `RXTask` body):
it "unconditionally transition[s] to STOPPED and raise[s] a RESET event", and a pending
acknowledgment is resolved as BUSCOUPLER_RESET_RESPONSE. -/
def deviceReset (r : RxEngine) : RxEngine × List Effect :=
  ({ r with dev := (resolveTxOutcome r.dev .BUSCOUPLER_RESET_RESPONSE).1.withRxState .RX_STOPPED },
    (resolveTxOutcome r.dev .BUSCOUPLER_RESET_RESPONSE).2 ++
      [.event r.dev._evtCallbackFct .BUSCOUPLER_EVENT_RESET])

/-- Modelled from the spec: a status-indication byte, §4.2 (missing `RXTask` body):
"status-indication bytes update StateIndication and raise a STATE_INDICATION event whenever
the value changes". -/
def stateIndication (r : RxEngine) (b : Nat) : RxEngine × List Effect :=
  if b = r.dev._stateIndication then (r, [])
  else
    ({ r with dev := { r.dev with _stateIndication := b } },
      [.event r.dev._evtCallbackFct .BUSCOUPLER_EVENT_STATE_INDICATION])

/-- Modelled from the spec: one byte in IDLE, §4.2 (missing `RXTask` body): a byte matching the
control-field pattern starts a reception and "is recorded as telegram byte 0"; the recognized
status/confirmation codes are handled (§4.3 for the confirmations); any other byte is
discarded. -/
def rxIdleByte (r : RxEngine) (b : Nat) : RxEngine × List Effect :=
  if isValidControlField b then
    ({ r with dev := r.dev.withRxState .RX_EIB_TELEGRAM_RECEPTION_STARTED, telegram := [b] }, [])
  else if b = TPUART_DATA_CONFIRM_SUCCESS then
    ({ r with dev := (resolveTxOutcome r.dev .ACK_RESPONSE).1 },
      (resolveTxOutcome r.dev .ACK_RESPONSE).2)
  else if b = TPUART_DATA_CONFIRM_FAILED then
    ({ r with dev := (resolveTxOutcome r.dev .NACK_RESPONSE).1 },
      (resolveTxOutcome r.dev .NACK_RESPONSE).2)
  else if b = TPUART_RESET_INDICATION then deviceReset r
  else if isStateIndication b then stateIndication r b
  else (r, [])

/-- Modelled from the spec: one byte in RECEPTION_STARTED, §4.2 (missing `RXTask` body):
"accumulates the destination address (2 bytes). Once complete, queries the Address Table
Builder; on a hit, transitions to RECEPTION_ADDRESSED, records the matched index, and
immediately writes the chip's addressed acknowledgment service byte"; "on a miss, transitions
to RECEPTION_NOT_ADDRESSED and writes the not-addressed acknowledgment byte". The destination
address is made of telegram bytes 1 (high) and 2 (low), as in the scenario of §8. -/
def rxAddressByte (r : RxEngine) (b : Nat) : RxEngine × List Effect :=
  if (r.telegram ++ [b]).length < 3 then ({ r with telegram := r.telegram ++ [b] }, [])
  else if (r.dev.IsAddressAssigned
      ((r.telegram ++ [b]).getD 1 0 * 256 + (r.telegram ++ [b]).getD 2 0) r.matchedIndex).1 then
    ({ dev := r.dev.withRxState .RX_EIB_TELEGRAM_RECEPTION_ADDRESSED
       telegram := r.telegram ++ [b]
       matchedIndex := (r.dev.IsAddressAssigned
         ((r.telegram ++ [b]).getD 1 0 * 256 + (r.telegram ++ [b]).getD 2 0) r.matchedIndex).2 },
      [.write TPUART_RX_ACK_SERVICE_ADDRESSED])
  else
    ({ r with
        dev := r.dev.withRxState .RX_EIB_TELEGRAM_RECEPTION_NOT_ADDRESSED
        telegram := r.telegram ++ [b] },
      [.write TPUART_RX_ACK_SERVICE_NOT_ADDRESSED])

/-- Modelled from the spec: one byte in RECEPTION_ADDRESSED or RECEPTION_NOT_ADDRESSED, §4.2
(missing `RXTask` body): "accumulates remaining bytes up to the declared telegram length. If
accumulated length exceeds the maximum telegram size, transitions to RECEPTION_LENGTH_INVALID";
"On reaching declared length in the addressed path, the telegram is complete: the RX context
is finalized, the completion event is raised, and the state returns to IDLE. On completion in
the not-addressed path, no event is raised"; "A reception error occurring on an addressed
telegram instead raises EIB_TELEGRAM_RECEPTION_ERROR and returns to IDLE". The length byte is
telegram byte 3, as in the scenario of §8; a reception error is a failed validity check of the
Telegram abstraction (§7: "checksum/length mismatch"). -/
def rxContentByte (T : TelegramOps) (r : RxEngine) (b : Nat) : RxEngine × List Effect :=
  if T.maxSize < (r.telegram ++ [b]).length then
    ({ r with
        dev := r.dev.withRxState .RX_EIB_TELEGRAM_RECEPTION_LENGTH_INVALID
        telegram := r.telegram ++ [b] }, [])
  else if T.declaredLength ((r.telegram ++ [b]).getD 3 0) ≤ (r.telegram ++ [b]).length then
    if r.dev._rx.state = .RX_EIB_TELEGRAM_RECEPTION_ADDRESSED then
      if T.isValid { bytes := r.telegram ++ [b] } then
        ({ r with
            dev :=
              { r.dev with
                _rx :=
                  { state := .RX_IDLE_WAITING_FOR_CTRL_FIELD
                    receivedTelegram := { bytes := r.telegram ++ [b] }
                    addressedComObjectIndex := r.matchedIndex } }
            telegram := r.telegram ++ [b] },
          [.event r.dev._evtCallbackFct .BUSCOUPLER_EVENT_RECEIVED_EIB_TELEGRAM])
      else
        ({ r with
            dev := r.dev.withRxState .RX_IDLE_WAITING_FOR_CTRL_FIELD
            telegram := r.telegram ++ [b] },
          [.event r.dev._evtCallbackFct .BUSCOUPLER_EVENT_EIB_TELEGRAM_RECEPTION_ERROR])
    else
      ({ r with
          dev := r.dev.withRxState .RX_IDLE_WAITING_FOR_CTRL_FIELD
          telegram := r.telegram ++ [b] }, [])
  else ({ r with telegram := r.telegram ++ [b] }, [])

/-- Modelled from the spec: one byte drained from the transport by the missing `RXTask` body,
§4.2. A device-reset indication byte is handled first, whatever the state: "Device-reset bytes
encountered in any state unconditionally transition to STOPPED and raise a RESET event". Any
other byte is handled "by current state": in STOPPED it is ignored; in IDLE and in the
reception states it is handled as the bullets of §4.2 say; before the engine is initialised
only a status indication is taken. In RECEPTION_LENGTH_INVALID "subsequent bytes are discarded
until an end-of-frame gap or next control byte"; the end-of-frame gap is a timing event and is
not part of this byte-level model. -/
def rxByte (T : TelegramOps) (r : RxEngine) (b : Nat) : RxEngine × List Effect :=
  if b = TPUART_RESET_INDICATION then deviceReset r
  else
    match r.dev._rx.state with
    | .RX_RESET => if isStateIndication b then stateIndication r b else (r, [])
    | .RX_INIT => if isStateIndication b then stateIndication r b else (r, [])
    | .RX_STOPPED => (r, [])
    | .RX_IDLE_WAITING_FOR_CTRL_FIELD => rxIdleByte r b
    | .RX_EIB_TELEGRAM_RECEPTION_STARTED => rxAddressByte r b
    | .RX_EIB_TELEGRAM_RECEPTION_ADDRESSED => rxContentByte T r b
    | .RX_EIB_TELEGRAM_RECEPTION_NOT_ADDRESSED => rxContentByte T r b
    | .RX_EIB_TELEGRAM_RECEPTION_LENGTH_INVALID =>
      if isValidControlField b then
        ({ r with dev := r.dev.withRxState .RX_EIB_TELEGRAM_RECEPTION_STARTED, telegram := [b] },
          [])
      else (r, [])

/-- Modelled from the spec: `KnxTpUart::RXTask` (declared in `KnxTpUart.h`, body missing),
§4.2: "the engine drains all bytes currently available from the transport (non-blocking) and,
per byte, acts by current state". The argument is the list of the bytes available; the result
is the engine after the poll and the effects in the order they happen. -/
def KnxTpUart.RXTask (T : TelegramOps) (r : RxEngine) : List Nat → RxEngine × List Effect
  | [] => (r, [])
  | b :: rest =>
    ((KnxTpUart.RXTask T (rxByte T r b).1 rest).1,
      (rxByte T r b).2 ++ (KnxTpUart.RXTask T (rxByte T r b).1 rest).2)

/-- The rx states the engine is in after each byte of a poll, in order. -/
def rxStates (T : TelegramOps) (r : RxEngine) : List Nat → List e_BusCouplerRxState
  | [] => []
  | b :: rest => (rxByte T r b).1.dev._rx.state :: rxStates T (rxByte T r b).1 rest

/-! ### §4.5 Reset / Lifecycle Controller -/

/-- Modelled from the spec: the wait of one reset attempt of the missing `Reset` body, §4.5:
"waits (bounded by a fixed timeout per attempt ...) for a reset-confirmation byte". Time is
counted in the unit of `KNX_RESETRESP_TIMEOUT`; the transport is polled once per time unit and
`serial t` is the byte it delivers at time `t`, if any. The result is the time of the
confirmation, if it arrives within `budget` time units from `now`. -/
def awaitResetIndication (serial : Nat → Option Nat) : Nat → Nat → Option Nat
  | 0, _ => none
  | budget + 1, now =>
    if serial now = some TPUART_RESET_INDICATION then some now
    else awaitResetIndication serial budget (now + 1)

/-- Result of `Reset`: the returned code, the object after the call, the bytes written to the
transport and the time spent in the call. -/
structure ResetOutcome where
  code : Nat
  dev : KnxTpUart
  written : List Nat
  elapsed : Nat
  deriving DecidableEq, Repr

/-- Modelled from the spec: the attempts of the missing `Reset` body, §4.5: "issues a reset
command to the chip, then waits (bounded by a fixed timeout per attempt and a fixed maximum
attempt count) for a reset-confirmation byte; on confirmation, both RX and TX contexts move to
STOPPED and then the controller advances them to INIT"; "Exhausting all attempts without
confirmation is a fatal initialization failure for that call". -/
def resetAttempts (serial : Nat → Option Nat) (s : KnxTpUart) :
    Nat → List Nat → Nat → ResetOutcome
  | 0, written, now =>
    { code := KNX_BUSCOUPLER_ERROR, dev := s, written := written, elapsed := now }
  | attempts + 1, written, now =>
    match awaitResetIndication serial KNX_RESETRESP_TIMEOUT now with
    | some t =>
      { code := KNX_BUSCOUPLER_OK
        dev := { s with _rx := { s._rx with state := .RX_INIT },
                        _tx := { s._tx with state := .TX_INIT } }
        written := written ++ [TPUART_RESET_REQ]
        elapsed := t + 1 }
    | none =>
      resetAttempts serial s attempts (written ++ [TPUART_RESET_REQ])
        (now + KNX_RESETRESP_TIMEOUT)

/-- Modelled from the spec: `KnxTpUart::Reset` (declared in `KnxTpUart.h`, body missing), §4.5
and §3 ("`Reset` which re-arms state machines to their RESET state"): both state machines are
put in their RESET state, then at most `KNX_RESET_ATTEMPTS` attempts are made. The spec does
not mention the members `_resetRespTimeout` and `_resetAttempts`; they are left as they are. -/
def KnxTpUart.Reset (s : KnxTpUart) (serial : Nat → Option Nat) : ResetOutcome :=
  resetAttempts serial
    { s with _rx := { s._rx with state := .RX_RESET }, _tx := { s._tx with state := .TX_RESET } }
    KNX_RESET_ATTEMPTS [] 0

/-- Modelled from the spec: `KnxTpUart::Init` (declared in `KnxTpUart.h`, body missing), §4.5:
"only valid from INIT; moves both RX and TX to IDLE, enabling normal operation"; the header
says that it "returns ERROR (255) if the TP-UART is not in INIT state, else returns OK (0)". -/
def KnxTpUart.Init (s : KnxTpUart) : Nat × KnxTpUart :=
  if s._rx.state ≠ .RX_INIT ∨ s._tx.state ≠ .TX_INIT then (KNX_BUSCOUPLER_ERROR, s)
  else
    (KNX_BUSCOUPLER_OK,
      { s with _rx := { s._rx with state := .RX_IDLE_WAITING_FOR_CTRL_FIELD },
               _tx := { s._tx with state := .TX_IDLE } })

/-! ## Concrete coupler states used by the closed theorems -/

/-- A `KnxTpUart` object whose reception and transmission parts are in the given states and
whose other members are zero. -/
def tpUartIn (rx : e_BusCouplerRxState) (tx : e_BusCouplerTxState) : KnxTpUart :=
  { _physicalAddr := 0, _mode := .NORMAL,
    _rx := { state := rx, receivedTelegram := { bytes := [] }, addressedComObjectIndex := 0 },
    _tx := { state := tx, sentTelegram := none, ackFctPtr := NULL, nbRemainingBytes := 0,
             txByteIndex := 0 },
    _evtCallbackFct := NULL, _comObjectsList := [], _assignedComObjectsNb := 0,
    _orderedIndexTable := [], _stateIndication := 0, _resetRespTimeout := 0,
    _resetAttempts := 0 }

/-- A `StKnxCoupler` object whose reception and transmission parts are in the given states
and whose other members are zero. -/
def stKnxIn (rx : e_BusCouplerRxState) (tx : e_BusCouplerTxState) : StKnxCoupler :=
  { _extTxCb := NULL, _physicalAddr := 0, _mode := .NORMAL,
    _rx := { state := rx, receivedTelegram := { bytes := [] }, addressedComObjectIndex := 0 },
    _tx := { state := tx, sentTelegram := none, ackFctPtr := NULL, nbRemainingBytes := 0,
             txByteIndex := 0 },
    _evtCallbackFct := NULL, _comObjectsList := [], _assignedComObjectsNb := 0,
    _orderedIndexTable := [], _stateIndication := 0 }

/-- The scenario of the spec's §8: objects with addresses 10, 20, 20 at indices 0, 1, 2. -/
def scenarioObjects : List KnxComObject := [⟨10, true⟩, ⟨20, true⟩, ⟨20, true⟩]

/-- A Telegram abstraction for the closed theorems: at most 23 bytes, valid when the exclusive
or of all the bytes is 0xFF, no source field in the layout of §8 (control, destination high
and low, length, payload, checksum), the length byte counting the payload bytes. -/
def scenarioTelegramOps : TelegramOps :=
  { maxSize := 23
    isValid := fun t => t.bytes.foldl (· ^^^ ·) 0 == 0xFF
    setSourceAddress := fun t _ => t
    declaredLength := fun l => l % 16 + 5 }

/-- A telegram of the layout of §8 addressed to address 20 (0x0014), with one payload byte. -/
def scenarioTelegram : List Nat := [0xBC, 0x00, 0x14, 0x01, 0x81, 0xD7]

/-- A telegram of the layout of §8 addressed to address 20 (0x0014) whose one payload byte is
0x03, the value of the reset indication. -/
def resetByteTelegram : List Nat := [0xBC, 0x00, 0x14, 0x01, 0x03, 0x55]

/-- A coupler object taken through the lifecycle of §4.5: reset of a new object (both state
machines in RESET), confirmed at once by the chip; event callback (at address 1000) and ack
callback (at address 2000) registered; the scenario objects attached; then `Init`. -/
def scenarioDevice : KnxTpUart :=
  (((((tpUartIn .RX_RESET .TX_RESET).Reset
    (fun _ => some TPUART_RESET_INDICATION)).dev.SetEvtCallback 1000).2.SetAckCallback
      2000).2.AttachComObjectsList scenarioObjects).2.Init.2

/-- The reception engine of the scenario device, no telegram in progress. -/
def scenarioEngine : RxEngine :=
  { dev := scenarioDevice, telegram := [], matchedIndex := 0 }

/-- The object after `n` polls of `TXTask`, none of them after the allotted ack time. -/
def pollTx (s : KnxTpUart) : Nat → KnxTpUart
  | 0 => s
  | n + 1 => pollTx (s.TXTask false).1 n

/-- The scenario engine after a completed send: the scenario telegram is accepted by
`SendTelegram` in IDLE and its six bytes are written by six polls of `TXTask`. -/
def engineAfterSend : RxEngine :=
  { scenarioEngine with
    dev := pollTx
      (scenarioDevice.SendTelegram scenarioTelegramOps { bytes := scenarioTelegram }).2.1 6 }

/-! ## The state common to the two back ends -/

/-- The data members that `class KnxTpUart` and `class StKnxCoupler` both declare, with the
same names and types (`_physicalAddr` to `_stateIndication`). -/
structure CouplerMembers where
  _physicalAddr : Nat
  _mode : type_KnxBusCouplerMode
  _rx : type_buscoupler_rx
  _tx : type_buscoupler_tx
  _evtCallbackFct : type_EventCallbackFctPtr
  _comObjectsList : List KnxComObject
  _assignedComObjectsNb : Nat
  _orderedIndexTable : List Nat
  _stateIndication : Nat
  deriving DecidableEq, Repr

/-- The common members of a `KnxTpUart` object. -/
def KnxTpUart.members (s : KnxTpUart) : CouplerMembers :=
  { _physicalAddr := s._physicalAddr, _mode := s._mode, _rx := s._rx, _tx := s._tx,
    _evtCallbackFct := s._evtCallbackFct, _comObjectsList := s._comObjectsList,
    _assignedComObjectsNb := s._assignedComObjectsNb,
    _orderedIndexTable := s._orderedIndexTable, _stateIndication := s._stateIndication }

/-- The common members of a `StKnxCoupler` object. -/
def StKnxCoupler.members (t : StKnxCoupler) : CouplerMembers :=
  { _physicalAddr := t._physicalAddr, _mode := t._mode, _rx := t._rx, _tx := t._tx,
    _evtCallbackFct := t._evtCallbackFct, _comObjectsList := t._comObjectsList,
    _assignedComObjectsNb := t._assignedComObjectsNb,
    _orderedIndexTable := t._orderedIndexTable, _stateIndication := t._stateIndication }

/-- The coupler state the operations of the headers read and write: rx state, tx state,
registered event callback, registered ack callback, state indication, addressed com object
index. -/
structure ContractState where
  rxState : e_BusCouplerRxState
  txState : e_BusCouplerTxState
  evtCallbackFct : type_EventCallbackFctPtr
  ackFctPtr : type_AckCallbackFctPtr
  stateIndication : Nat
  addressedComObjectIndex : Nat
  deriving DecidableEq, Repr

/-- The contract state of a `KnxTpUart` object. -/
def KnxTpUart.contractState (s : KnxTpUart) : ContractState :=
  { rxState := s._rx.state, txState := s._tx.state, evtCallbackFct := s._evtCallbackFct,
    ackFctPtr := s._tx.ackFctPtr, stateIndication := s._stateIndication,
    addressedComObjectIndex := s._rx.addressedComObjectIndex }

/-- The contract state of a `StKnxCoupler` object. -/
def StKnxCoupler.contractState (t : StKnxCoupler) : ContractState :=
  { rxState := t._rx.state, txState := t._tx.state, evtCallbackFct := t._evtCallbackFct,
    ackFctPtr := t._tx.ackFctPtr, stateIndication := t._stateIndication,
    addressedComObjectIndex := t._rx.addressedComObjectIndex }

/-- A `StKnxCoupler` object in the lifecycle phase of the scenario device: same common members,
transmit callback at address 3000. -/
def scenarioStKnx : StKnxCoupler :=
  { _extTxCb := 3000, _physicalAddr := scenarioDevice._physicalAddr,
    _mode := scenarioDevice._mode, _rx := scenarioDevice._rx, _tx := scenarioDevice._tx,
    _evtCallbackFct := scenarioDevice._evtCallbackFct,
    _comObjectsList := scenarioDevice._comObjectsList,
    _assignedComObjectsNb := scenarioDevice._assignedComObjectsNb,
    _orderedIndexTable := scenarioDevice._orderedIndexTable,
    _stateIndication := scenarioDevice._stateIndication }

/-- C1: for every coupler object of either back end and every callback argument `f`,
`SetEvtCallback` and `SetAckCallback` return `KNX_BUSCOUPLER_ERROR` (255) when `f` is `NULL`,
whatever the rx/tx states; otherwise `KNX_BUSCOUPLER_ERROR_NOT_INIT_STATE` (254) when the rx
state is not `RX_INIT` or the tx state is not `TX_INIT`; otherwise `KNX_BUSCOUPLER_OK` (0), and
then `f` is the registered event callback (resp. the tx ack callback). -/
theorem C1_callback_registration_codes (s : KnxTpUart) (t : StKnxCoupler) (f : Nat) :
    KNX_BUSCOUPLER_ERROR = 255 ∧ KNX_BUSCOUPLER_ERROR_NOT_INIT_STATE = 254 ∧
    KNX_BUSCOUPLER_OK = 0 ∧
    ((f = NULL → (s.SetEvtCallback f).1 = KNX_BUSCOUPLER_ERROR) ∧
     (f ≠ NULL → (s._rx.state ≠ .RX_INIT ∨ s._tx.state ≠ .TX_INIT) →
        (s.SetEvtCallback f).1 = KNX_BUSCOUPLER_ERROR_NOT_INIT_STATE) ∧
     (f ≠ NULL → s._rx.state = .RX_INIT → s._tx.state = .TX_INIT →
        (s.SetEvtCallback f).1 = KNX_BUSCOUPLER_OK ∧
        (s.SetEvtCallback f).2._evtCallbackFct = f)) ∧
    ((f = NULL → (s.SetAckCallback f).1 = KNX_BUSCOUPLER_ERROR) ∧
     (f ≠ NULL → (s._rx.state ≠ .RX_INIT ∨ s._tx.state ≠ .TX_INIT) →
        (s.SetAckCallback f).1 = KNX_BUSCOUPLER_ERROR_NOT_INIT_STATE) ∧
     (f ≠ NULL → s._rx.state = .RX_INIT → s._tx.state = .TX_INIT →
        (s.SetAckCallback f).1 = KNX_BUSCOUPLER_OK ∧
        (s.SetAckCallback f).2._tx.ackFctPtr = f)) ∧
    ((f = NULL → (t.SetEvtCallback f).1 = KNX_BUSCOUPLER_ERROR) ∧
     (f ≠ NULL → (t._rx.state ≠ .RX_INIT ∨ t._tx.state ≠ .TX_INIT) →
        (t.SetEvtCallback f).1 = KNX_BUSCOUPLER_ERROR_NOT_INIT_STATE) ∧
     (f ≠ NULL → t._rx.state = .RX_INIT → t._tx.state = .TX_INIT →
        (t.SetEvtCallback f).1 = KNX_BUSCOUPLER_OK ∧
        (t.SetEvtCallback f).2._evtCallbackFct = f)) ∧
    ((f = NULL → (t.SetAckCallback f).1 = KNX_BUSCOUPLER_ERROR) ∧
     (f ≠ NULL → (t._rx.state ≠ .RX_INIT ∨ t._tx.state ≠ .TX_INIT) →
        (t.SetAckCallback f).1 = KNX_BUSCOUPLER_ERROR_NOT_INIT_STATE) ∧
     (f ≠ NULL → t._rx.state = .RX_INIT → t._tx.state = .TX_INIT →
        (t.SetAckCallback f).1 = KNX_BUSCOUPLER_OK ∧
        (t.SetAckCallback f).2._tx.ackFctPtr = f)) := by
  refine ⟨rfl, rfl, rfl, ⟨?_, ?_, ?_⟩, ⟨?_, ?_, ?_⟩, ⟨?_, ?_, ?_⟩, ⟨?_, ?_, ?_⟩⟩
  · intro h; simp [KnxTpUart.SetEvtCallback, h]
  · intro h h2; simp [KnxTpUart.SetEvtCallback, h, h2]
  · intro h h2 h3; simp [KnxTpUart.SetEvtCallback, h, h2, h3]
  · intro h; simp [KnxTpUart.SetAckCallback, h]
  · intro h h2; simp [KnxTpUart.SetAckCallback, h, h2]
  · intro h h2 h3; simp [KnxTpUart.SetAckCallback, h, h2, h3]
  · intro h; simp [StKnxCoupler.SetEvtCallback, h]
  · intro h h2; simp [StKnxCoupler.SetEvtCallback, h, h2]
  · intro h h2 h3; simp [StKnxCoupler.SetEvtCallback, h, h2, h3]
  · intro h; simp [StKnxCoupler.SetAckCallback, h]
  · intro h h2; simp [StKnxCoupler.SetAckCallback, h, h2]
  · intro h h2 h3; simp [StKnxCoupler.SetAckCallback, h, h2, h3]

/-- Witness of C1: on objects in the init state (rx `RX_INIT`, tx `TX_INIT`) the registration
of the callback at address 1000 returns 0 and registers it; in the scenario device, already
initialised, it returns 254; the null pointer returns 255. -/
theorem C1_callback_registration_codes_witness :
    ((tpUartIn .RX_INIT .TX_INIT).SetEvtCallback 1000).1 = 0 ∧
    ((tpUartIn .RX_INIT .TX_INIT).SetEvtCallback 1000).2._evtCallbackFct = 1000 ∧
    ((stKnxIn .RX_INIT .TX_INIT).SetAckCallback 1000).2._tx.ackFctPtr = 1000 ∧
    (scenarioDevice.SetAckCallback 1000).1 = 254 ∧
    ((tpUartIn .RX_INIT .TX_INIT).SetEvtCallback NULL).1 = 255 :=
  ⟨((C1_callback_registration_codes (tpUartIn .RX_INIT .TX_INIT) (stKnxIn .RX_INIT .TX_INIT)
      1000).2.2.2.1.2.2 (by decide) rfl rfl).1,
    ((C1_callback_registration_codes (tpUartIn .RX_INIT .TX_INIT) (stKnxIn .RX_INIT .TX_INIT)
      1000).2.2.2.1.2.2 (by decide) rfl rfl).2,
    ((C1_callback_registration_codes (tpUartIn .RX_INIT .TX_INIT) (stKnxIn .RX_INIT .TX_INIT)
      1000).2.2.2.2.2.2.2.2 (by decide) rfl rfl).2,
    (C1_callback_registration_codes scenarioDevice (stKnxIn .RX_INIT .TX_INIT)
      1000).2.2.2.2.1.2.1 (by decide) (Or.inl (by decide)),
    (C1_callback_registration_codes (tpUartIn .RX_INIT .TX_INIT) (stKnxIn .RX_INIT .TX_INIT)
      NULL).2.2.2.1.1 rfl⟩

/-! ## Address table (§4.1) -/

/-- Members of a table after one last-wins insertion, when the addresses in the table are distinct. -/
theorem mem_insertLastWins (key : Nat → Nat) (i : Nat) (l : List Nat)
    (h : l.Pairwise (fun a b => key a ≠ key b)) (x : Nat) :
    x ∈ insertLastWins key i l ↔ x = i ∨ (x ∈ l ∧ key x ≠ key i) := by
  induction l with
  | nil => simp [insertLastWins]
  | cons j rest ih =>
    rw [List.pairwise_cons] at h
    obtain ⟨hj, hrest⟩ := h
    simp only [insertLastWins]
    split
    · rename_i hji
      simp only [List.mem_cons]
      constructor
      · rintro (hx | hx)
        · exact Or.inl hx
        · exact Or.inr ⟨Or.inr hx, fun hk => hj x hx (by rw [hji, hk])⟩
      · rintro (hx | ⟨hx | hx, hk⟩)
        · exact Or.inl hx
        · exact absurd (hx ▸ hji) hk
        · exact Or.inr hx
    · rename_i hji
      simp only [List.mem_cons, ih hrest]
      constructor
      · rintro (hx | hx | ⟨hx, hk⟩)
        · exact Or.inr ⟨Or.inl hx, hx ▸ hji⟩
        · exact Or.inl hx
        · exact Or.inr ⟨Or.inr hx, hk⟩
      · rintro (hx | ⟨hx | hx, hk⟩)
        · exact Or.inr (Or.inl hx)
        · exact Or.inl hx
        · exact Or.inr (Or.inr ⟨hx, hk⟩)

/-- A last-wins insertion keeps the addresses in the table distinct. -/
theorem pairwise_insertLastWins (key : Nat → Nat) (i : Nat) (l : List Nat)
    (h : l.Pairwise (fun a b => key a ≠ key b)) :
    (insertLastWins key i l).Pairwise (fun a b => key a ≠ key b) := by
  induction l with
  | nil => simp [insertLastWins]
  | cons j rest ih =>
    have h0 := h
    rw [List.pairwise_cons] at h
    obtain ⟨hj, hrest⟩ := h
    simp only [insertLastWins]
    split
    · rename_i hji
      rw [List.pairwise_cons]
      exact ⟨fun a ha => hji ▸ hj a ha, hrest⟩
    · rename_i hji
      rw [List.pairwise_cons]
      refine ⟨fun a ha => ?_, ih hrest⟩
      rcases (mem_insertLastWins key i rest hrest a).1 ha with ha | ⟨ha, _⟩
      · exact ha ▸ hji
      · exact hj a ha

/-- Collecting one more object is one more step of the fold. -/
theorem collectIndexes_succ (objs : List KnxComObject) (m : Nat) :
    collectIndexes objs (m + 1) =
      if comObjectEnabled objs m then
        insertLastWins (comObjectAddr objs) m (collectIndexes objs m)
      else collectIndexes objs m := by
  simp [collectIndexes, List.range_succ, List.foldl_append]

/-- After the first `m` objects the table holds, with distinct addresses, exactly the enabled
indexes below `m` that no later enabled index below `m` shares its address with. -/
theorem collectIndexes_spec (objs : List KnxComObject) (m : Nat) :
    (collectIndexes objs m).Pairwise (fun a b => comObjectAddr objs a ≠ comObjectAddr objs b) ∧
    ∀ x, x ∈ collectIndexes objs m ↔
      x < m ∧ comObjectEnabled objs x = true ∧
        ∀ k, x < k → k < m → comObjectEnabled objs k = true →
          comObjectAddr objs k ≠ comObjectAddr objs x := by
  induction m with
  | zero => simp [collectIndexes]
  | succ m ih =>
    obtain ⟨hp, hm⟩ := ih
    rw [collectIndexes_succ]
    by_cases hen : comObjectEnabled objs m = true
    · rw [if_pos hen]
      refine ⟨pairwise_insertLastWins _ _ _ hp, fun x => ?_⟩
      rw [mem_insertLastWins _ _ _ hp, hm]
      constructor
      · rintro (rfl | ⟨⟨hx, hex, hk⟩, hne⟩)
        · exact ⟨Nat.lt_succ_self _, hen, fun k h1 h2 => by omega⟩
        · refine ⟨by omega, hex, fun k h1 h2 h3 => ?_⟩
          rcases Nat.lt_succ_iff_lt_or_eq.1 h2 with h2 | h2
          · exact hk k h1 h2 h3
          · subst h2; exact fun h => hne h.symm
      · rintro ⟨hx, hex, hk⟩
        rcases Nat.lt_succ_iff_lt_or_eq.1 hx with hx | hx
        · exact Or.inr ⟨⟨hx, hex, fun k h1 h2 h3 => hk k h1 (by omega) h3⟩,
            fun h => hk m hx (Nat.lt_succ_self _) hen h.symm⟩
        · exact Or.inl hx
    · rw [if_neg hen]
      refine ⟨hp, fun x => ?_⟩
      rw [hm]
      constructor
      · rintro ⟨hx, hex, hk⟩
        refine ⟨by omega, hex, fun k h1 h2 h3 => ?_⟩
        rcases Nat.lt_succ_iff_lt_or_eq.1 h2 with h2 | h2
        · exact hk k h1 h2 h3
        · subst h2; exact absurd h3 hen
      · rintro ⟨hx, hex, hk⟩
        rcases Nat.lt_succ_iff_lt_or_eq.1 hx with hx | hx
        · exact ⟨hx, hex, fun k h1 h2 h3 => hk k h1 (by omega) h3⟩
        · subst hx; exact absurd hex hen

/-- Members of the ordered index table: the enabled indexes that are the highest of their address. -/
theorem buildOrderedIndexTable_mem (objs : List KnxComObject) (x : Nat) :
    x ∈ buildOrderedIndexTable objs ↔
      x < objs.length ∧ comObjectEnabled objs x = true ∧
        ∀ k, x < k → k < objs.length → comObjectEnabled objs k = true →
          comObjectAddr objs k ≠ comObjectAddr objs x := by
  unfold buildOrderedIndexTable
  rw [(List.perm_insertionSort _ _).mem_iff]
  exact (collectIndexes_spec objs objs.length).2 x

/-- The ordered index table is strictly increasing in address. -/
theorem buildOrderedIndexTable_sorted (objs : List KnxComObject) :
    (buildOrderedIndexTable objs).Pairwise
      (fun a b => comObjectAddr objs a < comObjectAddr objs b) := by
  have hle : (buildOrderedIndexTable objs).Pairwise
      (fun a b => comObjectAddr objs a ≤ comObjectAddr objs b) := by
    unfold buildOrderedIndexTable
    haveI : IsTotal Nat (fun a b => comObjectAddr objs a ≤ comObjectAddr objs b) :=
      ⟨fun a b => Nat.le_total _ _⟩
    haveI : IsTrans Nat (fun a b => comObjectAddr objs a ≤ comObjectAddr objs b) :=
      ⟨fun a b c h1 h2 => Nat.le_trans h1 h2⟩
    exact List.sorted_insertionSort _ _
  have hne : (buildOrderedIndexTable objs).Pairwise
      (fun a b => comObjectAddr objs a ≠ comObjectAddr objs b) := by
    unfold buildOrderedIndexTable
    exact ((List.perm_insertionSort _ _).pairwise_iff (fun h => Ne.symm h)).2
      (collectIndexes_spec objs objs.length).1
  exact (hle.and hne).imp (fun h => Nat.lt_of_le_of_ne h.1 h.2)

/-- In a table strictly increasing in key, an earlier entry has a smaller key. -/
theorem sorted_lookup_lt (key : Nat → Nat) (table : List Nat)
    (hs : table.Pairwise (fun a b => key a < key b)) (p q a b : Nat)
    (hp : table[p]? = some a) (hq : table[q]? = some b) (hpq : p < q) : key a < key b := by
  rw [List.pairwise_iff_getElem] at hs
  obtain ⟨hp1, hp2⟩ := List.getElem?_eq_some_iff.1 hp
  obtain ⟨hq1, hq2⟩ := List.getElem?_eq_some_iff.1 hq
  have := hs p q hp1 hq1 hpq
  rwa [hp2, hq2] at this

/-- What the binary search returns is an entry of the table with the searched address. -/
theorem binarySearch_sound (key : Nat → Nat) (table : List Nat) (addr : Nat) (fuel : Nat) :
    ∀ lo hi j, binarySearch key table addr fuel lo hi = some j → j ∈ table ∧ key j = addr := by
  induction fuel with
  | zero => intro lo hi j h; simp [binarySearch] at h
  | succ fuel ih =>
    intro lo hi j h
    simp only [binarySearch] at h
    split at h
    · split at h
      · simp at h
      · rename_i j' hj'
        split at h
        · rename_i hk
          simp only [Option.some.injEq] at h
          subst h
          exact ⟨List.getElem?_mem hj', hk⟩
        · split at h
          · exact ih _ _ _ h
          · exact ih _ _ _ h
    · simp at h

/-- With enough fuel the binary search finds the entry with the searched address when it lies in
the window of a table strictly increasing in key. -/
theorem binarySearch_complete (key : Nat → Nat) (table : List Nat) (addr : Nat)
    (hs : table.Pairwise (fun a b => key a < key b)) (fuel : Nat) :
    ∀ lo hi, hi ≤ table.length → hi - lo ≤ fuel →
      ∀ p j, table[p]? = some j → key j = addr → lo ≤ p → p < hi →
        binarySearch key table addr fuel lo hi = some j := by
  induction fuel with
  | zero => intro lo hi _ hf p j _ _ h1 h2; omega
  | succ fuel ih =>
    intro lo hi hlen hf p j hp hk h1 h2
    have hlt : lo < hi := by omega
    have hmid : (lo + hi) / 2 < table.length := by omega
    simp only [binarySearch, if_pos hlt]
    have hget : table[(lo + hi) / 2]? = some (table[(lo + hi) / 2]) :=
      List.getElem?_eq_getElem hmid
    rw [hget]
    simp only
    by_cases heq : key (table[(lo + hi) / 2]) = addr
    · rw [if_pos heq]
      rcases Nat.lt_trichotomy p ((lo + hi) / 2) with hlt' | heq' | hgt'
      · have := sorted_lookup_lt key table hs _ _ _ _ hp hget hlt'
        omega
      · subst heq'
        rw [hget] at hp
        exact hp
      · have := sorted_lookup_lt key table hs _ _ _ _ hget hp hgt'
        omega
    · rw [if_neg heq]
      by_cases hless : key (table[(lo + hi) / 2]) < addr
      · rw [if_pos hless]
        refine ih _ _ hlen (by omega) p j hp hk ?_ h2
        by_contra hcon
        rcases Nat.lt_or_eq_of_le (Nat.le_of_lt_succ (Nat.lt_of_not_le hcon)) with h3 | h3
        · have := sorted_lookup_lt key table hs _ _ _ _ hp hget h3
          omega
        · subst h3
          rw [hget] at hp
          simp only [Option.some.injEq] at hp
          rw [hp] at heq
          exact heq hk
      · rw [if_neg hless]
        refine ih _ _ (by omega) (by omega) p j hp hk h1 ?_
        by_contra hcon
        rcases Nat.lt_or_eq_of_le (Nat.le_of_not_lt hcon) with h3 | h3
        · have := sorted_lookup_lt key table hs _ _ _ _ hget hp h3
          omega
        · subst h3
          rw [hget] at hp
          simp only [Option.some.injEq] at hp
          rw [hp] at heq
          exact heq hk

/-- An index is enabled exactly when the list has an object with the communication flag there. -/
theorem comObjectEnabled_iff (objs : List KnxComObject) (i : Nat) :
    comObjectEnabled objs i = true ↔ ∃ o, objs[i]? = some o ∧ o.comm = true := by
  unfold comObjectEnabled
  cases objs[i]? <;> simp

/-- The address at an index of the list is the address of the object there. -/
theorem comObjectAddr_of_some (objs : List KnxComObject) (i : Nat) (o : KnxComObject)
    (h : objs[i]? = some o) : comObjectAddr objs i = o.addr := by
  simp [comObjectAddr, h]

/-- The binary search over the table built from a list: it returns the highest index of an
enabled object with the address, and it returns one whenever there is such an object. -/
theorem binarySearch_attached (objs : List KnxComObject) (addr : Nat) :
    (∀ j, binarySearch (comObjectAddr objs) (buildOrderedIndexTable objs) addr
        (buildOrderedIndexTable objs).length 0 (buildOrderedIndexTable objs).length = some j →
      (∃ o, objs[j]? = some o ∧ o.comm = true ∧ o.addr = addr) ∧
      ∀ k o, objs[k]? = some o → o.comm = true → o.addr = addr → k ≤ j) ∧
    ((∃ o ∈ objs, o.comm = true ∧ o.addr = addr) →
      ∃ j, binarySearch (comObjectAddr objs) (buildOrderedIndexTable objs) addr
        (buildOrderedIndexTable objs).length 0 (buildOrderedIndexTable objs).length = some j) := by
  constructor
  · intro j hj
    obtain ⟨hmem, hkey⟩ := binarySearch_sound _ _ _ _ _ _ _ hj
    obtain ⟨_, hen, hmax⟩ := (buildOrderedIndexTable_mem objs j).1 hmem
    obtain ⟨o, ho, hc⟩ := (comObjectEnabled_iff objs j).1 hen
    refine ⟨⟨o, ho, hc, ?_⟩, fun k o' ho' hc' ha' => ?_⟩
    · rw [← comObjectAddr_of_some objs j o ho]; exact hkey
    · by_contra hcon
      have hk : k < objs.length := (List.getElem?_eq_some_iff.1 ho').1
      refine hmax k (by omega) hk ((comObjectEnabled_iff objs k).2 ⟨o', ho', hc'⟩) ?_
      rw [comObjectAddr_of_some objs k o' ho', ha', hkey]
  · rintro ⟨o, ho, hc, ha⟩
    obtain ⟨i, hi⟩ := List.mem_iff_getElem?.1 ho
    have hilen : i < objs.length := (List.getElem?_eq_some_iff.1 hi).1
    have hPi : comObjectEnabled objs i = true ∧ comObjectAddr objs i = addr :=
      ⟨(comObjectEnabled_iff objs i).2 ⟨o, hi, hc⟩, by
        rw [comObjectAddr_of_some objs i o hi]; exact ha⟩
    have hg := Nat.findGreatest_spec
      (P := fun k => comObjectEnabled objs k = true ∧ comObjectAddr objs k = addr)
      (Nat.le_of_lt hilen) hPi
    have hgmax := fun k => Nat.findGreatest_is_greatest
      (P := fun k => comObjectEnabled objs k = true ∧ comObjectAddr objs k = addr)
      (n := objs.length) (k := k)
    generalize Nat.findGreatest
      (fun k => comObjectEnabled objs k = true ∧ comObjectAddr objs k = addr) objs.length = g
      at hg hgmax
    obtain ⟨og, hog, _⟩ := (comObjectEnabled_iff objs g).1 hg.1
    have hglen : g < objs.length := (List.getElem?_eq_some_iff.1 hog).1
    have hmem : g ∈ buildOrderedIndexTable objs :=
      (buildOrderedIndexTable_mem objs g).2
        ⟨hglen, hg.1, fun k h1 h2 h3 h4 => hgmax k h1 (Nat.le_of_lt h2) ⟨h3, by rw [h4, hg.2]⟩⟩
    obtain ⟨p, hp⟩ := List.mem_iff_getElem?.1 hmem
    exact ⟨g, binarySearch_complete _ _ _ (buildOrderedIndexTable_sorted objs) _ 0 _
      (Nat.le_refl _) (by omega) p g hp hg.2 (Nat.zero_le _)
      (List.getElem?_eq_some_iff.1 hp).1⟩

/-- C2: after `AttachComObjectsList` succeeds on a list of com objects, for every address
`addr`, `IsAddressAssigned(addr, index)` returns true exactly when some object of the list has
the communication attribute set and has address `addr`; it then sets `index` to the highest
list index among the communication-enabled objects with that address; otherwise it returns
false and leaves `index` as it was. -/
theorem C2_address_lookup_after_attach (s s' : KnxTpUart) (objs : List KnxComObject)
    (h : s.AttachComObjectsList objs = (KNX_BUSCOUPLER_OK, s')) (addr index : Nat) :
    ((s'.IsAddressAssigned addr index).1 = true ↔
      ∃ o ∈ objs, o.comm = true ∧ o.addr = addr) ∧
    ((s'.IsAddressAssigned addr index).1 = true →
      (∃ o, objs[(s'.IsAddressAssigned addr index).2]? = some o ∧ o.comm = true ∧
        o.addr = addr) ∧
      ∀ k o, objs[k]? = some o → o.comm = true → o.addr = addr →
        k ≤ (s'.IsAddressAssigned addr index).2) ∧
    ((s'.IsAddressAssigned addr index).1 = false →
      (s'.IsAddressAssigned addr index).2 = index) := by
  unfold KnxTpUart.AttachComObjectsList at h
  split at h
  · simp [KNX_BUSCOUPLER_OK, KNX_BUSCOUPLER_ERROR_NOT_INIT_STATE] at h
  · simp only [Prod.mk.injEq, true_and] at h
    subst h
    obtain ⟨hsound, hcomplete⟩ := binarySearch_attached objs addr
    simp only [KnxTpUart.IsAddressAssigned]
    cases hbs : binarySearch (comObjectAddr objs) (buildOrderedIndexTable objs) addr
        (buildOrderedIndexTable objs).length 0 (buildOrderedIndexTable objs).length with
    | none =>
      refine ⟨⟨fun h => by simp at h, fun h => ?_⟩, fun h => by simp at h, fun _ => rfl⟩
      obtain ⟨j, hj⟩ := hcomplete h
      rw [hbs] at hj
      exact absurd hj (by simp)
    | some j =>
      obtain ⟨⟨o, ho, hc, ha⟩, hmax⟩ := hsound j hbs
      exact ⟨⟨fun _ => ⟨o, List.getElem?_mem ho, hc, ha⟩, fun _ => rfl⟩,
        fun _ => ⟨⟨o, ho, hc, ha⟩, hmax⟩, fun h => by simp at h⟩

/-- Witness of C2 on the scenario of the spec's §8 (addresses 10, 20, 20 at indices 0, 1, 2,
all enabled): the attachment succeeds, address 20 resolves to index 2, address 10 to index 0,
address 30 to none, and index 2 is the highest index of an enabled object with address 20. -/
theorem C2_address_lookup_scenario :
    (tpUartIn .RX_INIT .TX_INIT).AttachComObjectsList scenarioObjects =
      (KNX_BUSCOUPLER_OK, ((tpUartIn .RX_INIT .TX_INIT).AttachComObjectsList scenarioObjects).2) ∧
    (((tpUartIn .RX_INIT .TX_INIT).AttachComObjectsList scenarioObjects).2.IsAddressAssigned
      20 0 = (true, 2)) ∧
    (((tpUartIn .RX_INIT .TX_INIT).AttachComObjectsList scenarioObjects).2.IsAddressAssigned
      10 7 = (true, 0)) ∧
    (((tpUartIn .RX_INIT .TX_INIT).AttachComObjectsList scenarioObjects).2.IsAddressAssigned
      30 7 = (false, 7)) ∧
    ∀ k o, scenarioObjects[k]? = some o → o.comm = true → o.addr = 20 →
      k ≤ (((tpUartIn .RX_INIT .TX_INIT).AttachComObjectsList
        scenarioObjects).2.IsAddressAssigned 20 0).2 :=
  ⟨by decide, by decide, by decide, by decide,
    ((C2_address_lookup_after_attach (tpUartIn .RX_INIT .TX_INIT) _ scenarioObjects
      (by decide) 20 0).2.1 (by decide)).2⟩

/-! ## Control field (§6) -/

set_option maxRecDepth 100000 in
/-- C3: acceptance of a received first byte `b` as a control field is a function of `b` alone,
`(b AND 0xD3) = 0x90`: for every byte, `b` is accepted exactly when bit 7 is 1, bit 6 is 0
(standard frame format "10"), bit 4 is 1 and bits 1 and 0 are 0; flipping bit 5, 3 or 2 never
changes the verdict; exactly the 8 bytes 0x90, 0x94, 0x98, 0x9C, 0xB0, 0xB4, 0xB8, 0xBC of the
256 byte values are accepted and every other byte is rejected. -/
theorem C3_control_field_validity :
    EIB_CONTROL_FIELD_PATTERN_MASK = 0xD3 ∧ EIB_CONTROL_FIELD_VALID_PATTERN = 0x90 ∧
    (∀ b : Nat, isValidControlField b = true ↔
      b &&& EIB_CONTROL_FIELD_PATTERN_MASK = EIB_CONTROL_FIELD_VALID_PATTERN) ∧
    (∀ b : Nat, b < 256 →
      (isValidControlField b = true ↔
        (b.testBit 7 = true ∧ b.testBit 6 = false ∧ b.testBit 4 = true ∧
          b.testBit 1 = false ∧ b.testBit 0 = false)) ∧
      isValidControlField (b ^^^ 0x20) = isValidControlField b ∧
      isValidControlField (b ^^^ 0x08) = isValidControlField b ∧
      isValidControlField (b ^^^ 0x04) = isValidControlField b ∧
      (isValidControlField b = true ↔
        b ∈ [0x90, 0x94, 0x98, 0x9C, 0xB0, 0xB4, 0xB8, 0xBC])) ∧
    (List.range 256).filter isValidControlField =
      [0x90, 0x94, 0x98, 0x9C, 0xB0, 0xB4, 0xB8, 0xBC] ∧
    ((List.range 256).filter isValidControlField).length = 8 := by
  refine ⟨rfl, rfl, fun b => ?_, ?_, ?_, ?_⟩
  · simp [isValidControlField]
  · decide
  · decide
  · decide

/-- Witness of C3: byte 0xBC is a byte value and is accepted; byte 0x8B is rejected. -/
theorem C3_control_field_validity_witness :
    (0xBC < 256 ∧ 0x8B < 256) ∧ isValidControlField 0xBC = true ∧
    ¬ isValidControlField 0x8B = true :=
  ⟨by decide,
    ((C3_control_field_validity.2.2.2.1 0xBC (by decide)).2.2.2.2).2 (by decide),
    fun h => absurd (((C3_control_field_validity.2.2.2.1 0x8B (by decide)).2.2.2.2).1 h)
      (by decide)⟩

/-! ## Transmission engine (§4.3) -/

/-- C4: for every coupler object whose tx state is not `TX_IDLE` and every telegram,
`SendTelegram` returns `KNX_BUSCOUPLER_ERROR` (255) and leaves the whole tx context (state,
sentTelegram, ackFctPtr, nbRemainingBytes, txByteIndex) unchanged; indeed the whole object and
the caller's telegram are unchanged. -/
theorem C4_send_rejected_when_not_idle (T : TelegramOps) (s : KnxTpUart)
    (sentTelegram : KnxTelegram) (h : s._tx.state ≠ .TX_IDLE) :
    (s.SendTelegram T sentTelegram).1 = KNX_BUSCOUPLER_ERROR ∧ KNX_BUSCOUPLER_ERROR = 255 ∧
    (s.SendTelegram T sentTelegram).2.1._tx = s._tx ∧
    ((s.SendTelegram T sentTelegram).2.1._tx.state = s._tx.state ∧
      (s.SendTelegram T sentTelegram).2.1._tx.sentTelegram = s._tx.sentTelegram ∧
      (s.SendTelegram T sentTelegram).2.1._tx.ackFctPtr = s._tx.ackFctPtr ∧
      (s.SendTelegram T sentTelegram).2.1._tx.nbRemainingBytes = s._tx.nbRemainingBytes ∧
      (s.SendTelegram T sentTelegram).2.1._tx.txByteIndex = s._tx.txByteIndex) ∧
    (s.SendTelegram T sentTelegram).2.1 = s ∧
    (s.SendTelegram T sentTelegram).2.2 = sentTelegram := by
  simp [KnxTpUart.SendTelegram, h, KNX_BUSCOUPLER_ERROR]

/-- Witness of C4: a send issued while an acknowledgment is awaited (tx state
`TX_WAITING_ACK`) is rejected with code 255 and the object is unchanged. -/
theorem C4_send_rejected_when_not_idle_witness :
    engineAfterSend.dev._tx.state ≠ .TX_IDLE ∧
    (engineAfterSend.dev.SendTelegram scenarioTelegramOps
        { bytes := scenarioTelegram }).1 = 255 ∧
    (engineAfterSend.dev.SendTelegram scenarioTelegramOps
        { bytes := scenarioTelegram }).2.1 = engineAfterSend.dev :=
  ⟨by decide,
    (C4_send_rejected_when_not_idle scenarioTelegramOps engineAfterSend.dev
      { bytes := scenarioTelegram } (by decide)).1,
    (C4_send_rejected_when_not_idle scenarioTelegramOps engineAfterSend.dev
      { bytes := scenarioTelegram } (by decide)).2.2.2.2.1⟩

/-- Outside WAITING_ACK nothing is resolved. -/
theorem resolveTxOutcome_of_not_waiting (s : KnxTpUart) (a : e_BusCouplerTxAck)
    (h : s._tx.state ≠ .TX_WAITING_ACK) : resolveTxOutcome s a = (s, []) := by
  simp [resolveTxOutcome, h]

/-- When no acknowledgment is awaited, a drained byte leaves the tx context as it is and calls no
ack callback. -/
theorem rxByte_of_not_waiting (T : TelegramOps) (r : RxEngine) (b : Nat)
    (h : r.dev._tx.state ≠ .TX_WAITING_ACK) :
    (rxByte T r b).1.dev._tx = r.dev._tx ∧ (rxByte T r b).2.filter Effect.isAck = [] := by
  unfold rxByte
  by_cases hb : b = TPUART_RESET_INDICATION
  · rw [if_pos hb]
    simp [deviceReset, resolveTxOutcome_of_not_waiting _ _ h, KnxTpUart.withRxState,
      Effect.isAck]
  · rw [if_neg hb]
    cases hrx : r.dev._rx.state <;>
      simp only [rxIdleByte, rxAddressByte, rxContentByte, deviceReset, stateIndication,
        resolveTxOutcome_of_not_waiting _ _ h, KnxTpUart.withRxState] <;>
      (repeat' split) <;> simp [Effect.isAck]

/-- When no acknowledgment is awaited, a poll of `RXTask` leaves the tx context as it is and calls
no ack callback. -/
theorem RXTask_of_not_waiting (T : TelegramOps) (bytes : List Nat) :
    ∀ r : RxEngine, r.dev._tx.state ≠ .TX_WAITING_ACK →
      (KnxTpUart.RXTask T r bytes).1.dev._tx = r.dev._tx ∧
      (KnxTpUart.RXTask T r bytes).2.filter Effect.isAck = [] := by
  induction bytes with
  | nil => intro r _; simp [KnxTpUart.RXTask]
  | cons b rest ih =>
    intro r h
    obtain ⟨h1, h2⟩ := rxByte_of_not_waiting T r b h
    obtain ⟨h3, h4⟩ := ih (rxByte T r b).1 (by rw [h1]; exact h)
    simp only [KnxTpUart.RXTask, List.filter_append, h2, h4, h3, h1]
    simp

/-- A confirmation byte drained while reception is idle and an acknowledgment is awaited. -/
theorem rxByte_confirm (T : TelegramOps) (r : RxEngine) (b : Nat) (a : e_BusCouplerTxAck)
    (hb : (b = TPUART_DATA_CONFIRM_SUCCESS ∧ a = .ACK_RESPONSE) ∨
      (b = TPUART_DATA_CONFIRM_FAILED ∧ a = .NACK_RESPONSE))
    (hrx : r.dev._rx.state = .RX_IDLE_WAITING_FOR_CTRL_FIELD)
    (htx : r.dev._tx.state = .TX_WAITING_ACK) :
    rxByte T r b =
      ({ r with dev := { r.dev with _tx := { r.dev._tx with state := .TX_IDLE } } },
        [.ack r.dev._tx.ackFctPtr a]) := by
  rcases hb with ⟨rfl, rfl⟩ | ⟨rfl, rfl⟩
  · have h1 : isValidControlField TPUART_DATA_CONFIRM_SUCCESS = false := by decide
    have h0 : TPUART_DATA_CONFIRM_SUCCESS ≠ TPUART_RESET_INDICATION := by decide
    simp [rxByte, h0, hrx, rxIdleByte, h1, resolveTxOutcome, htx]
  · have h1 : isValidControlField TPUART_DATA_CONFIRM_FAILED = false := by decide
    have h0 : TPUART_DATA_CONFIRM_FAILED ≠ TPUART_RESET_INDICATION := by decide
    have h2 : TPUART_DATA_CONFIRM_FAILED ≠ TPUART_DATA_CONFIRM_SUCCESS := by decide
    simp [rxByte, h0, hrx, rxIdleByte, h1, h2, resolveTxOutcome, htx]

/-- C5, amended: when the tx state is `TX_WAITING_ACK`, the outcome is delivered to the registered ack
callback exactly once and the tx state then is `TX_IDLE`. A data-confirm-success byte (0x8B)
drained while reception is idle yields one call with `ACK_RESPONSE`, a data-confirm-failed byte
(0x0B) one call with `NACK_RESPONSE`, and a poll of `TXTask` after the allotted time one call
with `NO_ANSWER_TIMEOUT` (a poll before that time changes nothing). Whatever bytes `later` are
drained afterwards and whatever the next poll, no further call of the ack callback is made. -/
theorem C5_ack_outcome_delivered_once (T : TelegramOps) (r : RxEngine) (later : List Nat)
    (poll : Bool) (htx : r.dev._tx.state = .TX_WAITING_ACK) :
    (TPUART_DATA_CONFIRM_SUCCESS = 0x8B ∧ TPUART_DATA_CONFIRM_FAILED = 0x0B) ∧
    (r.dev._rx.state = .RX_IDLE_WAITING_FOR_CTRL_FIELD →
      ((KnxTpUart.RXTask T r [TPUART_DATA_CONFIRM_SUCCESS]).2 =
          [.ack r.dev._tx.ackFctPtr .ACK_RESPONSE] ∧
        (KnxTpUart.RXTask T r [TPUART_DATA_CONFIRM_SUCCESS]).1.dev._tx.state = .TX_IDLE ∧
        (KnxTpUart.RXTask T r (TPUART_DATA_CONFIRM_SUCCESS :: later)).2.filter Effect.isAck =
          [.ack r.dev._tx.ackFctPtr .ACK_RESPONSE] ∧
        (KnxTpUart.RXTask T r (TPUART_DATA_CONFIRM_SUCCESS :: later)).1.dev._tx.state =
          .TX_IDLE ∧
        ((KnxTpUart.RXTask T r (TPUART_DATA_CONFIRM_SUCCESS :: later)).1.dev.TXTask poll).2 =
          []) ∧
      ((KnxTpUart.RXTask T r [TPUART_DATA_CONFIRM_FAILED]).2 =
          [.ack r.dev._tx.ackFctPtr .NACK_RESPONSE] ∧
        (KnxTpUart.RXTask T r [TPUART_DATA_CONFIRM_FAILED]).1.dev._tx.state = .TX_IDLE ∧
        (KnxTpUart.RXTask T r (TPUART_DATA_CONFIRM_FAILED :: later)).2.filter Effect.isAck =
          [.ack r.dev._tx.ackFctPtr .NACK_RESPONSE] ∧
        (KnxTpUart.RXTask T r (TPUART_DATA_CONFIRM_FAILED :: later)).1.dev._tx.state =
          .TX_IDLE ∧
        ((KnxTpUart.RXTask T r (TPUART_DATA_CONFIRM_FAILED :: later)).1.dev.TXTask poll).2 =
          [])) ∧
    ((r.dev.TXTask true).2 = [.ack r.dev._tx.ackFctPtr .NO_ANSWER_TIMEOUT] ∧
      (r.dev.TXTask true).1._tx.state = .TX_IDLE ∧
      (r.dev.TXTask true).1.TXTask poll = ((r.dev.TXTask true).1, []) ∧
      (KnxTpUart.RXTask T { r with dev := (r.dev.TXTask true).1 } later).2.filter
        Effect.isAck = []) ∧
    r.dev.TXTask false = (r.dev, []) := by
  refine ⟨⟨rfl, rfl⟩, fun hrx => ⟨?_, ?_⟩, ?_, ?_⟩
  · have hb := rxByte_confirm T r TPUART_DATA_CONFIRM_SUCCESS .ACK_RESPONSE
      (Or.inl ⟨rfl, rfl⟩) hrx htx
    have hl := RXTask_of_not_waiting T later
      { r with dev := { r.dev with _tx := { r.dev._tx with state := .TX_IDLE } } }
      (by simp)
    simp only [KnxTpUart.RXTask, hb, List.filter_append, hl.2, hl.1]
    simp [Effect.isAck, KnxTpUart.TXTask, hl.1]
  · have hb := rxByte_confirm T r TPUART_DATA_CONFIRM_FAILED .NACK_RESPONSE
      (Or.inr ⟨rfl, rfl⟩) hrx htx
    have hl := RXTask_of_not_waiting T later
      { r with dev := { r.dev with _tx := { r.dev._tx with state := .TX_IDLE } } }
      (by simp)
    simp only [KnxTpUart.RXTask, hb, List.filter_append, hl.2, hl.1]
    simp [Effect.isAck, KnxTpUart.TXTask, hl.1]
  · have h1 : r.dev.TXTask true =
        ({ r.dev with _tx := { r.dev._tx with state := .TX_IDLE } },
          [.ack r.dev._tx.ackFctPtr .NO_ANSWER_TIMEOUT]) := by
      simp [KnxTpUart.TXTask, htx, resolveTxOutcome]
    have hl := RXTask_of_not_waiting T later
      { r with dev := { r.dev with _tx := { r.dev._tx with state := .TX_IDLE } } }
      (by simp)
    rw [h1]
    refine ⟨rfl, rfl, ?_, hl.2⟩
    simp [KnxTpUart.TXTask]
  · simp [KnxTpUart.TXTask, htx]

/-- Witness of the amended C5: after a completed send of the scenario telegram the tx state is
`TX_WAITING_ACK` and reception is idle; byte 0x8B then yields one call of the registered ack
callback (at address 2000) with `ACK_RESPONSE`, byte 0x0B one call with `NACK_RESPONSE`, also
when further confirmation and reset bytes follow, and the timeout one call with
`NO_ANSWER_TIMEOUT`. -/
theorem C5_ack_outcome_delivered_once_witness :
    (engineAfterSend.dev._tx.state = .TX_WAITING_ACK ∧
      engineAfterSend.dev._rx.state = .RX_IDLE_WAITING_FOR_CTRL_FIELD ∧
      engineAfterSend.dev._tx.ackFctPtr = 2000) ∧
    (KnxTpUart.RXTask scenarioTelegramOps engineAfterSend [0x8B]).2 =
      [.ack 2000 .ACK_RESPONSE] ∧
    (KnxTpUart.RXTask scenarioTelegramOps engineAfterSend [0x0B, 0x8B, 0x0B, 0x03]).2.filter
      Effect.isAck = [.ack 2000 .NACK_RESPONSE] ∧
    (engineAfterSend.dev.TXTask true).2 = [.ack 2000 .NO_ANSWER_TIMEOUT] ∧
    (engineAfterSend.dev.TXTask true).1._tx.state = .TX_IDLE :=
  have h := C5_ack_outcome_delivered_once scenarioTelegramOps engineAfterSend
    [0x8B, 0x0B, 0x03] false (by decide)
  ⟨by decide, (h.2.1 (by decide)).1.1, (h.2.1 (by decide)).2.2.2.1, h.2.2.1.1, h.2.2.1.2.1⟩

/-- C5, counterexample: after a completed send of the scenario telegram the tx state is
`TX_WAITING_ACK`; once a control field (0xBC) has started a reception, the rx state is
`RX_EIB_TELEGRAM_RECEPTION_STARTED` and the tx state still `TX_WAITING_ACK`, and a byte 0x8B
(resp. 0x0B) drained then is accumulated as telegram content: the ack callback is not called
and the tx state stays `TX_WAITING_ACK`. -/
theorem C5_ack_outcome_counterexample :
    engineAfterSend.dev._tx.state = .TX_WAITING_ACK ∧
    (KnxTpUart.RXTask scenarioTelegramOps engineAfterSend [0xBC]).1.dev._tx.state =
      .TX_WAITING_ACK ∧
    (KnxTpUart.RXTask scenarioTelegramOps engineAfterSend [0xBC]).1.dev._rx.state =
      .RX_EIB_TELEGRAM_RECEPTION_STARTED ∧
    (KnxTpUart.RXTask scenarioTelegramOps
      (KnxTpUart.RXTask scenarioTelegramOps engineAfterSend [0xBC]).1
      [TPUART_DATA_CONFIRM_SUCCESS]).2 = [] ∧
    (KnxTpUart.RXTask scenarioTelegramOps
      (KnxTpUart.RXTask scenarioTelegramOps engineAfterSend [0xBC]).1
      [TPUART_DATA_CONFIRM_SUCCESS]).1.dev._tx.state = .TX_WAITING_ACK ∧
    (KnxTpUart.RXTask scenarioTelegramOps
      (KnxTpUart.RXTask scenarioTelegramOps engineAfterSend [0xBC]).1
      [TPUART_DATA_CONFIRM_FAILED]).2 = [] ∧
    (KnxTpUart.RXTask scenarioTelegramOps
      (KnxTpUart.RXTask scenarioTelegramOps engineAfterSend [0xBC]).1
      [TPUART_DATA_CONFIRM_FAILED]).1.dev._tx.state = .TX_WAITING_ACK ∧
    (KnxTpUart.RXTask scenarioTelegramOps engineAfterSend [0xBC, 0x8B]).2.filter
      Effect.isAck = [] := by
  decide

/-! ## Reception engine (§4.2) -/

/-- An index inside the first part of an append reads the first part. -/
theorem getD_append_pre (pre rest : List Nat) (n : Nat) (h : n < pre.length) :
    (pre ++ rest).getD n 0 = pre.getD n 0 := by
  simp [List.getD_eq_getElem?_getD, List.getElem?_append_left h]

/-- From RECEPTION_ADDRESSED with at least the three header bytes accumulated, the remaining
bytes of a well-formed telegram, none of them a reset indication, complete it: one RECEIVED
event, the RX context finalized. -/
theorem rxContent_run (T : TelegramOps) (full : List Nat)
    (hlen : T.declaredLength (full.getD 3 0) = full.length) (hmax : full.length ≤ T.maxSize)
    (hvalid : T.isValid { bytes := full } = true) (more : List Nat) :
    ∀ r : RxEngine, r.dev._rx.state = .RX_EIB_TELEGRAM_RECEPTION_ADDRESSED →
      3 ≤ r.telegram.length → r.telegram ++ more = full → more ≠ [] →
      (∀ b ∈ more, b ≠ TPUART_RESET_INDICATION) →
      KnxTpUart.RXTask T r more =
        ({ dev := { r.dev with
                    _rx := { state := .RX_IDLE_WAITING_FOR_CTRL_FIELD
                             receivedTelegram := { bytes := full }
                             addressedComObjectIndex := r.matchedIndex } }
           telegram := full
           matchedIndex := r.matchedIndex },
          [.event r.dev._evtCallbackFct .BUSCOUPLER_EVENT_RECEIVED_EIB_TELEGRAM]) ∧
      rxStates T r more =
        List.replicate (more.length - 1) .RX_EIB_TELEGRAM_RECEPTION_ADDRESSED ++
          [.RX_IDLE_WAITING_FOR_CTRL_FIELD] := by
  induction more with
  | nil => intro r _ _ _ h; exact absurd rfl h
  | cons b rest ih =>
    intro r hst h3 hfull _ hnr
    have hb : b ≠ TPUART_RESET_INDICATION := hnr b (by simp)
    have hfull' : (r.telegram ++ [b]) ++ rest = full := by
      rw [← hfull]; simp
    have hbuflen : (r.telegram ++ [b]).length = r.telegram.length + 1 := by simp
    have hget : (r.telegram ++ [b]).getD 3 0 = full.getD 3 0 := by
      rw [← hfull']; exact (getD_append_pre _ _ _ (by omega)).symm
    have hfl : full.length = r.telegram.length + 1 + rest.length := by
      rw [← hfull', List.length_append, hbuflen]
    have hnotmax : ¬ T.maxSize < (r.telegram ++ [b]).length := by omega
    cases rest with
    | nil =>
      have hbuf : r.telegram ++ [b] = full := by rw [← hfull']; simp
      have hstep : rxByte T r b =
          ({ dev := { r.dev with
                      _rx := { state := .RX_IDLE_WAITING_FOR_CTRL_FIELD
                               receivedTelegram := { bytes := full }
                               addressedComObjectIndex := r.matchedIndex } }
             telegram := full
             matchedIndex := r.matchedIndex },
            [.event r.dev._evtCallbackFct .BUSCOUPLER_EVENT_RECEIVED_EIB_TELEGRAM]) := by
        simp only [rxByte, if_neg hb, hst, rxContentByte]
        rw [if_neg hnotmax, hget, hlen, hbuf, if_pos (Nat.le_refl _)]
        simp [hvalid]
      simp [KnxTpUart.RXTask, rxStates, hstep]
    | cons b' rest' =>
      have hcont : ¬ T.declaredLength ((r.telegram ++ [b]).getD 3 0) ≤
          (r.telegram ++ [b]).length := by
        rw [hget, hlen, hfl, hbuflen]; simp
      have hstep : rxByte T r b = ({ r with telegram := r.telegram ++ [b] }, []) := by
        simp only [rxByte, if_neg hb, hst, rxContentByte]
        rw [if_neg hnotmax, if_neg hcont]
      obtain ⟨ih1, ih2⟩ := ih { r with telegram := r.telegram ++ [b] } hst
        (by simp; omega) hfull' (by simp) (fun x hx => hnr x (List.mem_cons_of_mem _ hx))
      constructor
      · simp only [KnxTpUart.RXTask] at ih1 ⊢
        rw [hstep]
        simp only [List.nil_append]
        rw [ih1]
      · simp only [rxStates] at ih2 ⊢
        rw [hstep]
        simp only [hst]
        rw [ih2]
        simp [List.replicate_succ]

/-- In an object whose table is the one built from its list, the lookup of the address of an
enabled object of the list succeeds, whatever the `index` argument, with the highest index of
an enabled object with that address. -/
theorem isAddressAssigned_of_attached (s : KnxTpUart) (i : Nat) (o : KnxComObject)
    (htable : s._orderedIndexTable = buildOrderedIndexTable s._comObjectsList)
    (hnb : s._assignedComObjectsNb = (buildOrderedIndexTable s._comObjectsList).length)
    (hobj : s._comObjectsList[i]? = some o) (hcomm : o.comm = true) :
    ∃ j, (∀ index, s.IsAddressAssigned o.addr index = (true, j)) ∧
      (∃ o', s._comObjectsList[j]? = some o' ∧ o'.comm = true ∧ o'.addr = o.addr) ∧
      (∀ k o', s._comObjectsList[k]? = some o' → o'.comm = true → o'.addr = o.addr →
        k ≤ j) := by
  obtain ⟨hsound, hcomplete⟩ := binarySearch_attached s._comObjectsList o.addr
  obtain ⟨j, hj⟩ := hcomplete ⟨o, List.getElem?_mem hobj, hcomm, rfl⟩
  obtain ⟨hex, hmax⟩ := hsound j hj
  refine ⟨j, fun index => ?_, hex, hmax⟩
  simp only [KnxTpUart.IsAddressAssigned, htable, hnb, hj]

/-- C6, amended: starting from rx state `RX_IDLE_WAITING_FOR_CTRL_FIELD`, for every complete
well-formed telegram (a valid control field, the two destination address bytes, the length
byte, then the remaining bytes, of the declared total length, not longer than the maximum and
passing the validity check) that contains no reset indication byte (0x03) and whose
destination address is the address of an attached communication-enabled com object (object
`i` of the attached list), feeding its bytes to `RXTask` passes through
`RX_EIB_TELEGRAM_RECEPTION_ADDRESSED`, raises exactly one event, which is
`BUSCOUPLER_EVENT_RECEIVED_EIB_TELEGRAM`, ends in `RX_IDLE_WAITING_FOR_CTRL_FIELD`, and leaves
`GetTargetedComObjectIndex()` equal to the highest index among the attached
communication-enabled objects with that address; this is `i` when no enabled object of higher
index has the same address. -/
theorem C6_addressed_telegram_reception (T : TelegramOps) (r : RxEngine)
    (b0 hi lo len : Nat) (rest : List Nat) (i : Nat) (o : KnxComObject)
    (hrx : r.dev._rx.state = .RX_IDLE_WAITING_FOR_CTRL_FIELD)
    (htable : r.dev._orderedIndexTable = buildOrderedIndexTable r.dev._comObjectsList)
    (hnb : r.dev._assignedComObjectsNb =
      (buildOrderedIndexTable r.dev._comObjectsList).length)
    (hobj : r.dev._comObjectsList[i]? = some o) (hcomm : o.comm = true)
    (hctrl : isValidControlField b0 = true)
    (hdest : hi * 256 + lo = o.addr)
    (hnoreset : ∀ b ∈ hi :: lo :: len :: rest, b ≠ TPUART_RESET_INDICATION)
    (hlen : T.declaredLength len = (b0 :: hi :: lo :: len :: rest).length)
    (hmax : (b0 :: hi :: lo :: len :: rest).length ≤ T.maxSize)
    (hvalid : T.isValid { bytes := b0 :: hi :: lo :: len :: rest } = true) :
    rxStates T r (b0 :: hi :: lo :: len :: rest) =
      [.RX_EIB_TELEGRAM_RECEPTION_STARTED, .RX_EIB_TELEGRAM_RECEPTION_STARTED,
        .RX_EIB_TELEGRAM_RECEPTION_ADDRESSED] ++
      List.replicate rest.length .RX_EIB_TELEGRAM_RECEPTION_ADDRESSED ++
      [.RX_IDLE_WAITING_FOR_CTRL_FIELD] ∧
    (KnxTpUart.RXTask T r (b0 :: hi :: lo :: len :: rest)).2 =
      [.write TPUART_RX_ACK_SERVICE_ADDRESSED,
        .event r.dev._evtCallbackFct .BUSCOUPLER_EVENT_RECEIVED_EIB_TELEGRAM] ∧
    (KnxTpUart.RXTask T r (b0 :: hi :: lo :: len :: rest)).2.filter Effect.isEvent =
      [.event r.dev._evtCallbackFct .BUSCOUPLER_EVENT_RECEIVED_EIB_TELEGRAM] ∧
    (KnxTpUart.RXTask T r (b0 :: hi :: lo :: len :: rest)).1.dev._rx.state =
      .RX_IDLE_WAITING_FOR_CTRL_FIELD ∧
    (KnxTpUart.RXTask T r (b0 :: hi :: lo :: len :: rest)).1.dev.GetReceivedTelegram =
      { bytes := b0 :: hi :: lo :: len :: rest } ∧
    (∃ o', r.dev._comObjectsList[(KnxTpUart.RXTask T r
        (b0 :: hi :: lo :: len :: rest)).1.dev.GetTargetedComObjectIndex]? = some o' ∧
      o'.comm = true ∧ o'.addr = o.addr) ∧
    (∀ k o', r.dev._comObjectsList[k]? = some o' → o'.comm = true → o'.addr = o.addr →
      k ≤ (KnxTpUart.RXTask T r
        (b0 :: hi :: lo :: len :: rest)).1.dev.GetTargetedComObjectIndex) ∧
    ((∀ k o', r.dev._comObjectsList[k]? = some o' → o'.comm = true → o'.addr = o.addr →
        k ≤ i) →
      (KnxTpUart.RXTask T r
        (b0 :: hi :: lo :: len :: rest)).1.dev.GetTargetedComObjectIndex = i) := by
  have hb0 : b0 ≠ TPUART_RESET_INDICATION := by
    intro h
    rw [h] at hctrl
    exact absurd hctrl (by decide)
  have hhi : hi ≠ TPUART_RESET_INDICATION := hnoreset hi (by simp)
  have hlo : lo ≠ TPUART_RESET_INDICATION := hnoreset lo (by simp)
  obtain ⟨j, hj, hjex, hjmax⟩ := isAddressAssigned_of_attached r.dev i o htable hnb hobj hcomm
  have h0 : rxByte T r b0 =
      ({ r with dev := r.dev.withRxState .RX_EIB_TELEGRAM_RECEPTION_STARTED, telegram := [b0] },
        []) := by
    simp [rxByte, hb0, hrx, rxIdleByte, hctrl]
  have h1 : rxByte T
      { r with dev := r.dev.withRxState .RX_EIB_TELEGRAM_RECEPTION_STARTED, telegram := [b0] }
      hi =
      ({ r with dev := r.dev.withRxState .RX_EIB_TELEGRAM_RECEPTION_STARTED,
                telegram := [b0, hi] }, []) := by
    simp [rxByte, hhi, KnxTpUart.withRxState, rxAddressByte]
  have hassigned : ∀ index,
      (r.dev.withRxState .RX_EIB_TELEGRAM_RECEPTION_STARTED).IsAddressAssigned
        (hi * 256 + lo) index = (true, j) := by
    intro index
    rw [hdest]
    exact hj index
  have h2 : rxByte T
      { r with dev := r.dev.withRxState .RX_EIB_TELEGRAM_RECEPTION_STARTED,
               telegram := [b0, hi] } lo =
      ({ dev := (r.dev.withRxState .RX_EIB_TELEGRAM_RECEPTION_STARTED).withRxState
                  .RX_EIB_TELEGRAM_RECEPTION_ADDRESSED
         telegram := [b0, hi, lo]
         matchedIndex := j }, [.write TPUART_RX_ACK_SERVICE_ADDRESSED]) := by
    have hst : (r.dev.withRxState .RX_EIB_TELEGRAM_RECEPTION_STARTED)._rx.state =
        .RX_EIB_TELEGRAM_RECEPTION_STARTED := rfl
    simp only [rxByte, if_neg hlo, hst, rxAddressByte]
    simp [hassigned]
  obtain ⟨hrun, hstates⟩ := rxContent_run T (b0 :: hi :: lo :: len :: rest)
    (by simpa using hlen) hmax hvalid (len :: rest)
    { dev := (r.dev.withRxState .RX_EIB_TELEGRAM_RECEPTION_STARTED).withRxState
               .RX_EIB_TELEGRAM_RECEPTION_ADDRESSED
      telegram := [b0, hi, lo]
      matchedIndex := j } rfl (by simp) (by simp) (by simp)
    (fun x hx => hnoreset x (List.mem_cons_of_mem _ (List.mem_cons_of_mem _ hx)))
  have hfull : KnxTpUart.RXTask T r (b0 :: hi :: lo :: len :: rest) =
      ({ dev := { r.dev with
                  _rx := { state := .RX_IDLE_WAITING_FOR_CTRL_FIELD
                           receivedTelegram := { bytes := b0 :: hi :: lo :: len :: rest }
                           addressedComObjectIndex := j } }
         telegram := b0 :: hi :: lo :: len :: rest
         matchedIndex := j },
        [.write TPUART_RX_ACK_SERVICE_ADDRESSED,
          .event r.dev._evtCallbackFct .BUSCOUPLER_EVENT_RECEIVED_EIB_TELEGRAM]) := by
    rw [KnxTpUart.RXTask, h0, KnxTpUart.RXTask, h1, KnxTpUart.RXTask, h2, hrun]
    simp [KnxTpUart.withRxState]
  have hidx : (KnxTpUart.RXTask T r
      (b0 :: hi :: lo :: len :: rest)).1.dev.GetTargetedComObjectIndex = j := by
    rw [hfull]; rfl
  refine ⟨?_, ?_, ?_, ?_, ?_, ?_, ?_, ?_⟩
  · rw [rxStates, h0, rxStates, h1, rxStates, h2, hstates]
    simp [KnxTpUart.withRxState]
  · rw [hfull]
  · rw [hfull]; simp [Effect.isEvent]
  · rw [hfull]
  · rw [hfull]; rfl
  · rw [hidx]; exact hjex
  · rw [hidx]; exact hjmax
  · intro hlast
    rw [hidx]
    obtain ⟨o', ho', hc', ha'⟩ := hjex
    exact Nat.le_antisymm (hlast j o' ho' hc' ha') (hjmax i o hobj hcomm rfl)

/-- Witness of the amended C6 on the scenario of the spec's §8: the six-byte telegram addressed
to address 20 (0x0014), without a 0x03 byte, is fed to the engine with the objects of addresses
10, 20, 20 attached; object 1 is enabled and has address 20; the engine writes the addressed
acknowledgment, raises the one event, ends idle, and the index left is not below 1. -/
theorem C6_addressed_telegram_reception_witness :
    (scenarioEngine.dev._rx.state = .RX_IDLE_WAITING_FOR_CTRL_FIELD ∧
      scenarioEngine.dev._comObjectsList[1]? = some ⟨20, true⟩ ∧
      isValidControlField 0xBC = true ∧
      scenarioTelegramOps.declaredLength 0x01 = scenarioTelegram.length ∧
      scenarioTelegramOps.isValid { bytes := scenarioTelegram } = true) ∧
    (KnxTpUart.RXTask scenarioTelegramOps scenarioEngine scenarioTelegram).2 =
      [.write 0x11, .event 1000 .BUSCOUPLER_EVENT_RECEIVED_EIB_TELEGRAM] ∧
    (KnxTpUart.RXTask scenarioTelegramOps scenarioEngine
      scenarioTelegram).1.dev._rx.state = .RX_IDLE_WAITING_FOR_CTRL_FIELD ∧
    1 ≤ (KnxTpUart.RXTask scenarioTelegramOps scenarioEngine
      scenarioTelegram).1.dev.GetTargetedComObjectIndex :=
  have h := C6_addressed_telegram_reception scenarioTelegramOps scenarioEngine
    0xBC 0x00 0x14 0x01 [0x81, 0xD7] 1 ⟨20, true⟩ (by decide) (by decide) (by decide)
    (by decide) (by decide) (by decide) (by decide) (by decide) (by decide) (by decide)
    (by decide)
  ⟨by decide, h.2.1, h.2.2.2.1, h.2.2.2.2.2.2.1 1 ⟨20, true⟩ (by decide) rfl rfl⟩

/-- C6, counterexample: in the scenario of the spec's §8 (objects of addresses 10, 20, 20, all
enabled, attached) object 1 is attached, enabled and has address 20, and the scenario telegram
is complete and well-formed and addressed to 20; yet after its reception
`GetTargetedComObjectIndex()` is 2, not 1. And the complete well-formed telegram to address 20
whose payload byte is 0x03 raises no `BUSCOUPLER_EVENT_RECEIVED_EIB_TELEGRAM` event and ends in
`RX_STOPPED`: its 0x03 byte is taken as a device reset. -/
theorem C6_addressed_telegram_reception_counterexample :
    (scenarioEngine.dev._rx.state = .RX_IDLE_WAITING_FOR_CTRL_FIELD ∧
      scenarioEngine.dev._comObjectsList[1]? = some ⟨20, true⟩ ∧
      scenarioTelegram = [0xBC, 0x00, 0x14, 0x01, 0x81, 0xD7] ∧
      isValidControlField 0xBC = true ∧ 0x00 * 256 + 0x14 = 20 ∧
      scenarioTelegramOps.declaredLength 0x01 = scenarioTelegram.length ∧
      scenarioTelegram.length ≤ scenarioTelegramOps.maxSize ∧
      scenarioTelegramOps.isValid { bytes := scenarioTelegram } = true ∧
      (KnxTpUart.RXTask scenarioTelegramOps scenarioEngine
        scenarioTelegram).1.dev.GetTargetedComObjectIndex = 2 ∧
      (KnxTpUart.RXTask scenarioTelegramOps scenarioEngine
        scenarioTelegram).1.dev.GetTargetedComObjectIndex ≠ 1) ∧
    (scenarioEngine.dev._comObjectsList[2]? = some ⟨20, true⟩ ∧
      resetByteTelegram = [0xBC, 0x00, 0x14, 0x01, 0x03, 0x55] ∧
      scenarioTelegramOps.declaredLength 0x01 = resetByteTelegram.length ∧
      resetByteTelegram.length ≤ scenarioTelegramOps.maxSize ∧
      scenarioTelegramOps.isValid { bytes := resetByteTelegram } = true ∧
      (KnxTpUart.RXTask scenarioTelegramOps scenarioEngine resetByteTelegram).2 =
        [.write 0x11, .event 1000 .BUSCOUPLER_EVENT_RESET] ∧
      (KnxTpUart.RXTask scenarioTelegramOps scenarioEngine
        resetByteTelegram).1.dev._rx.state = .RX_STOPPED ∧
      (KnxTpUart.RXTask scenarioTelegramOps scenarioEngine
        resetByteTelegram).1.dev.GetTargetedComObjectIndex ≠ 2) := by
  decide

/-! ## Reset (§4.5) -/

/-- No indication in the window: the wait of one attempt times out. -/
theorem awaitResetIndication_none (serial : Nat → Option Nat) (budget : Nat) :
    ∀ now, (∀ t, now ≤ t → t < now + budget → serial t ≠ some TPUART_RESET_INDICATION) →
      awaitResetIndication serial budget now = none := by
  induction budget with
  | zero => intro now _; rfl
  | succ budget ih =>
    intro now h
    simp only [awaitResetIndication]
    rw [if_neg (h now (Nat.le_refl _) (by omega))]
    exact ih (now + 1) (fun t h1 h2 => h t (by omega) (by omega))

/-- A wait that timed out saw no indication in its window. -/
theorem awaitResetIndication_none_imp (serial : Nat → Option Nat) (budget : Nat) :
    ∀ now, awaitResetIndication serial budget now = none →
      ∀ t, now ≤ t → t < now + budget → serial t ≠ some TPUART_RESET_INDICATION := by
  induction budget with
  | zero => intro now _ t h1 h2; omega
  | succ budget ih =>
    intro now h t h1 h2
    simp only [awaitResetIndication] at h
    split at h
    · simp at h
    · rename_i hs
      rcases Nat.eq_or_lt_of_le h1 with h3 | h3
      · subst h3; exact hs
      · exact ih (now + 1) h t h3 (by omega)

/-- A confirmed wait read the indication at a time of its window. -/
theorem awaitResetIndication_some (serial : Nat → Option Nat) (budget : Nat) :
    ∀ now t, awaitResetIndication serial budget now = some t →
      now ≤ t ∧ t < now + budget ∧ serial t = some TPUART_RESET_INDICATION := by
  induction budget with
  | zero => intro now t h; simp [awaitResetIndication] at h
  | succ budget ih =>
    intro now t h
    simp only [awaitResetIndication] at h
    split at h
    · rename_i hs
      simp only [Option.some.injEq] at h
      subst h
      exact ⟨Nat.le_refl _, by omega, hs⟩
    · obtain ⟨h1, h2, h3⟩ := ih (now + 1) t h
      exact ⟨by omega, by omega, h3⟩

/-- The attempts of `Reset`: codes, bytes written, time bound, and the two outcomes. -/
theorem resetAttempts_spec (serial : Nat → Option Nat) (s : KnxTpUart) (attempts : Nat) :
    ∀ written now,
      ((resetAttempts serial s attempts written now).code = KNX_BUSCOUPLER_OK ∨
        (resetAttempts serial s attempts written now).code = KNX_BUSCOUPLER_ERROR) ∧
      (∃ k, k ≤ attempts ∧
        (resetAttempts serial s attempts written now).written =
          written ++ List.replicate k TPUART_RESET_REQ ∧
        (resetAttempts serial s attempts written now).elapsed ≤
          now + k * KNX_RESETRESP_TIMEOUT) ∧
      ((∀ t, now ≤ t → t < now + attempts * KNX_RESETRESP_TIMEOUT →
          serial t ≠ some TPUART_RESET_INDICATION) →
        resetAttempts serial s attempts written now =
          { code := KNX_BUSCOUPLER_ERROR, dev := s,
            written := written ++ List.replicate attempts TPUART_RESET_REQ,
            elapsed := now + attempts * KNX_RESETRESP_TIMEOUT }) ∧
      ((∃ t, now ≤ t ∧ t < now + attempts * KNX_RESETRESP_TIMEOUT ∧
          serial t = some TPUART_RESET_INDICATION) →
        (resetAttempts serial s attempts written now).code = KNX_BUSCOUPLER_OK ∧
        (resetAttempts serial s attempts written now).dev =
          { s with _rx := { s._rx with state := .RX_INIT },
                   _tx := { s._tx with state := .TX_INIT } }) := by
  induction attempts with
  | zero =>
    intro written now
    refine ⟨Or.inr rfl, ⟨0, Nat.le_refl _, by simp [resetAttempts], by simp [resetAttempts]⟩,
      fun _ => by simp [resetAttempts], ?_⟩
    rintro ⟨t, h1, h2, _⟩
    omega
  | succ attempts ih =>
    intro written now
    simp only [resetAttempts]
    cases hw : awaitResetIndication serial KNX_RESETRESP_TIMEOUT now with
    | some t =>
      obtain ⟨h1, h2, h3⟩ := awaitResetIndication_some serial _ now t hw
      refine ⟨Or.inl rfl, ⟨1, by omega, by simp, by simp; omega⟩, fun h => ?_, fun _ => ⟨rfl, rfl⟩⟩
      exact absurd h3 (h t h1 (by rw [Nat.succ_mul]; omega))
    | none =>
      obtain ⟨ih1, ⟨k, hk1, hk2, hk3⟩, ih3, ih4⟩ :=
        ih (written ++ [TPUART_RESET_REQ]) (now + KNX_RESETRESP_TIMEOUT)
      refine ⟨ih1, ⟨k + 1, by omega, ?_, ?_⟩, fun h => ?_, ?_⟩
      · simp only [hk2, List.append_assoc, List.replicate_succ, List.singleton_append]
      · simp only [Nat.succ_mul] at hk3 ⊢; omega
      · simp only []
        rw [ih3 (fun t h1 h2 => h t (by omega) (by rw [Nat.succ_mul]; omega))]
        simp only [List.append_assoc, List.replicate_succ, List.singleton_append,
          Nat.succ_mul]
        congr 1
        omega
      · rintro ⟨t, h1, h2, h3⟩
        apply ih4
        refine ⟨t, ?_, by rw [Nat.succ_mul] at h2; omega, h3⟩
        by_contra hcon
        exact awaitResetIndication_none_imp serial _ now hw t h1 (by omega) h3

/-- C7: `Reset()` always terminates (it is a total function of the object and of what the
transport delivers): it makes at most `KNX_RESET_ATTEMPTS` (10) attempts, one reset request
each, each waiting at most `KNX_RESETRESP_TIMEOUT` (1000), so it never waits more than
10 × 1000; it returns `KNX_BUSCOUPLER_OK` or `KNX_BUSCOUPLER_ERROR`; when no reset indication
byte (0x03) ever arrives it gives up after exactly 10 attempts and returns
`KNX_BUSCOUPLER_ERROR`, both state machines being in their RESET state; when one arrives within
the 10 × 1000 time units it returns `KNX_BUSCOUPLER_OK` with both state machines in INIT. -/
theorem C7_reset_terminates_within_budget (s : KnxTpUart) (serial : Nat → Option Nat) :
    (KNX_RESET_ATTEMPTS = 10 ∧ KNX_RESETRESP_TIMEOUT = 1000 ∧ TPUART_RESET_INDICATION = 0x03) ∧
    ((s.Reset serial).code = KNX_BUSCOUPLER_OK ∨ (s.Reset serial).code = KNX_BUSCOUPLER_ERROR) ∧
    (∃ k, k ≤ KNX_RESET_ATTEMPTS ∧
      (s.Reset serial).written = List.replicate k TPUART_RESET_REQ ∧
      (s.Reset serial).elapsed ≤ k * KNX_RESETRESP_TIMEOUT) ∧
    (s.Reset serial).elapsed ≤ KNX_RESET_ATTEMPTS * KNX_RESETRESP_TIMEOUT ∧
    ((∀ t, serial t ≠ some TPUART_RESET_INDICATION) →
      (s.Reset serial).code = KNX_BUSCOUPLER_ERROR ∧
      (s.Reset serial).written = List.replicate KNX_RESET_ATTEMPTS TPUART_RESET_REQ ∧
      (s.Reset serial).elapsed = KNX_RESET_ATTEMPTS * KNX_RESETRESP_TIMEOUT ∧
      (s.Reset serial).dev._rx.state = .RX_RESET ∧ (s.Reset serial).dev._tx.state = .TX_RESET) ∧
    ((∃ t, t < KNX_RESET_ATTEMPTS * KNX_RESETRESP_TIMEOUT ∧
        serial t = some TPUART_RESET_INDICATION) →
      (s.Reset serial).code = KNX_BUSCOUPLER_OK ∧
      (s.Reset serial).dev._rx.state = .RX_INIT ∧ (s.Reset serial).dev._tx.state = .TX_INIT) := by
  obtain ⟨h1, ⟨k, hk1, hk2, hk3⟩, h3, h4⟩ := resetAttempts_spec serial
    { s with _rx := { s._rx with state := .RX_RESET }, _tx := { s._tx with state := .TX_RESET } }
    KNX_RESET_ATTEMPTS [] 0
  refine ⟨⟨rfl, rfl, rfl⟩, h1, ⟨k, hk1, by simpa using hk2, by simpa using hk3⟩, ?_, ?_, ?_⟩
  · have hmono : k * KNX_RESETRESP_TIMEOUT ≤ KNX_RESET_ATTEMPTS * KNX_RESETRESP_TIMEOUT :=
      Nat.mul_le_mul_right _ hk1
    have hk3' : (s.Reset serial).elapsed ≤ 0 + k * KNX_RESETRESP_TIMEOUT := hk3
    omega
  · intro h
    have := h3 (fun t _ _ => h t)
    unfold KnxTpUart.Reset
    rw [this]
    simp
  · rintro ⟨t, ht1, ht2⟩
    obtain ⟨h5, h6⟩ := h4 ⟨t, Nat.zero_le _, by omega, ht2⟩
    unfold KnxTpUart.Reset
    rw [h5, h6]
    exact ⟨rfl, rfl, rfl⟩

/-- Witness of C7: with a transport that never delivers anything, `Reset` of a new object
returns 255 after 10 reset requests and 10000 time units; with a chip that confirms at once it
returns 0 and both state machines are in INIT. -/
theorem C7_reset_terminates_within_budget_witness :
    ((∀ t, (fun _ : Nat => (none : Option Nat)) t ≠ some TPUART_RESET_INDICATION) ∧
      ((tpUartIn .RX_RESET .TX_RESET).Reset (fun _ => none)).code = 255 ∧
      ((tpUartIn .RX_RESET .TX_RESET).Reset (fun _ => none)).written =
        List.replicate 10 TPUART_RESET_REQ ∧
      ((tpUartIn .RX_RESET .TX_RESET).Reset (fun _ => none)).elapsed = 10 * 1000) ∧
    (((tpUartIn .RX_RESET .TX_RESET).Reset (fun _ => some TPUART_RESET_INDICATION)).code = 0 ∧
      ((tpUartIn .RX_RESET .TX_RESET).Reset
        (fun _ => some TPUART_RESET_INDICATION)).dev._rx.state = .RX_INIT) :=
  ⟨⟨fun _ h => Option.noConfusion h,
      ((C7_reset_terminates_within_budget (tpUartIn .RX_RESET .TX_RESET)
        (fun _ => none)).2.2.2.2.1 (fun _ h => Option.noConfusion h)).1,
      ((C7_reset_terminates_within_budget (tpUartIn .RX_RESET .TX_RESET)
        (fun _ => none)).2.2.2.2.1 (fun _ h => Option.noConfusion h)).2.1,
      ((C7_reset_terminates_within_budget (tpUartIn .RX_RESET .TX_RESET)
        (fun _ => none)).2.2.2.2.1 (fun _ h => Option.noConfusion h)).2.2.1⟩,
    ((C7_reset_terminates_within_budget (tpUartIn .RX_RESET .TX_RESET)
      (fun _ => some TPUART_RESET_INDICATION)).2.2.2.2.2 ⟨0, by decide, rfl⟩).1,
    ((C7_reset_terminates_within_budget (tpUartIn .RX_RESET .TX_RESET)
      (fun _ => some TPUART_RESET_INDICATION)).2.2.2.2.2 ⟨0, by decide, rfl⟩).2.1⟩

/-! ## Rejected registration and activity (inline functions of the headers) -/

/-- C8: callback registration is rejected atomically. For every coupler object of either back
end and every argument, `SetEvtCallback` and `SetAckCallback` return a code other than
`KNX_BUSCOUPLER_OK` exactly when the argument is `NULL` or the rx state is not `RX_INIT` or the
tx state is not `TX_INIT`, and whenever they do the whole object is unchanged; in particular
the registered event callback and tx ack callback are kept. -/
theorem C8_rejected_registration_keeps_state (s : KnxTpUart) (t : StKnxCoupler) (f : Nat) :
    (((s.SetEvtCallback f).1 ≠ KNX_BUSCOUPLER_OK ↔
        (f = NULL ∨ s._rx.state ≠ .RX_INIT ∨ s._tx.state ≠ .TX_INIT)) ∧
      ((s.SetEvtCallback f).1 ≠ KNX_BUSCOUPLER_OK →
        (s.SetEvtCallback f).2 = s ∧
        (s.SetEvtCallback f).2._evtCallbackFct = s._evtCallbackFct ∧
        (s.SetEvtCallback f).2._tx.ackFctPtr = s._tx.ackFctPtr)) ∧
    (((s.SetAckCallback f).1 ≠ KNX_BUSCOUPLER_OK ↔
        (f = NULL ∨ s._rx.state ≠ .RX_INIT ∨ s._tx.state ≠ .TX_INIT)) ∧
      ((s.SetAckCallback f).1 ≠ KNX_BUSCOUPLER_OK →
        (s.SetAckCallback f).2 = s ∧
        (s.SetAckCallback f).2._evtCallbackFct = s._evtCallbackFct ∧
        (s.SetAckCallback f).2._tx.ackFctPtr = s._tx.ackFctPtr)) ∧
    (((t.SetEvtCallback f).1 ≠ KNX_BUSCOUPLER_OK ↔
        (f = NULL ∨ t._rx.state ≠ .RX_INIT ∨ t._tx.state ≠ .TX_INIT)) ∧
      ((t.SetEvtCallback f).1 ≠ KNX_BUSCOUPLER_OK →
        (t.SetEvtCallback f).2 = t ∧
        (t.SetEvtCallback f).2._evtCallbackFct = t._evtCallbackFct ∧
        (t.SetEvtCallback f).2._tx.ackFctPtr = t._tx.ackFctPtr)) ∧
    (((t.SetAckCallback f).1 ≠ KNX_BUSCOUPLER_OK ↔
        (f = NULL ∨ t._rx.state ≠ .RX_INIT ∨ t._tx.state ≠ .TX_INIT)) ∧
      ((t.SetAckCallback f).1 ≠ KNX_BUSCOUPLER_OK →
        (t.SetAckCallback f).2 = t ∧
        (t.SetAckCallback f).2._evtCallbackFct = t._evtCallbackFct ∧
        (t.SetAckCallback f).2._tx.ackFctPtr = t._tx.ackFctPtr)) := by
  refine ⟨?_, ?_, ?_, ?_⟩
  · unfold KnxTpUart.SetEvtCallback
    by_cases h1 : f = NULL
    · simp [h1, KNX_BUSCOUPLER_OK, KNX_BUSCOUPLER_ERROR]
    · by_cases h2 : s._rx.state ≠ .RX_INIT ∨ s._tx.state ≠ .TX_INIT
      · simp only [if_neg h1, if_pos h2]
        simp [h2, KNX_BUSCOUPLER_OK, KNX_BUSCOUPLER_ERROR_NOT_INIT_STATE]
      · simp only [if_neg h1, if_neg h2]
        simp [h1, h2]
  · unfold KnxTpUart.SetAckCallback
    by_cases h1 : f = NULL
    · simp [h1, KNX_BUSCOUPLER_OK, KNX_BUSCOUPLER_ERROR]
    · by_cases h2 : s._rx.state ≠ .RX_INIT ∨ s._tx.state ≠ .TX_INIT
      · simp only [if_neg h1, if_pos h2]
        simp [h2, KNX_BUSCOUPLER_OK, KNX_BUSCOUPLER_ERROR_NOT_INIT_STATE]
      · simp only [if_neg h1, if_neg h2]
        simp [h1, h2]
  · unfold StKnxCoupler.SetEvtCallback
    by_cases h1 : f = NULL
    · simp [h1, KNX_BUSCOUPLER_OK, KNX_BUSCOUPLER_ERROR]
    · by_cases h2 : t._rx.state ≠ .RX_INIT ∨ t._tx.state ≠ .TX_INIT
      · simp only [if_neg h1, if_pos h2]
        simp [h2, KNX_BUSCOUPLER_OK, KNX_BUSCOUPLER_ERROR_NOT_INIT_STATE]
      · simp only [if_neg h1, if_neg h2]
        simp [h1, h2]
  · unfold StKnxCoupler.SetAckCallback
    by_cases h1 : f = NULL
    · simp [h1, KNX_BUSCOUPLER_OK, KNX_BUSCOUPLER_ERROR]
    · by_cases h2 : t._rx.state ≠ .RX_INIT ∨ t._tx.state ≠ .TX_INIT
      · simp only [if_neg h1, if_pos h2]
        simp [h2, KNX_BUSCOUPLER_OK, KNX_BUSCOUPLER_ERROR_NOT_INIT_STATE]
      · simp only [if_neg h1, if_neg h2]
        simp [h1, h2]

/-- Witness of C8: in the scenario device, already initialised, the registration of another
event callback is rejected and the device, with its callback at address 1000, is unchanged;
so is the registration of the null pointer in an object in the init state. -/
theorem C8_rejected_registration_keeps_state_witness :
    ((scenarioDevice.SetEvtCallback 3000).1 ≠ KNX_BUSCOUPLER_OK ∧
      (scenarioDevice.SetEvtCallback 3000).2 = scenarioDevice ∧
      (scenarioDevice.SetEvtCallback 3000).2._evtCallbackFct = 1000) ∧
    ((stKnxIn .RX_INIT .TX_INIT).SetAckCallback NULL).2 = stKnxIn .RX_INIT .TX_INIT :=
  ⟨⟨by decide,
      ((C8_rejected_registration_keeps_state scenarioDevice (stKnxIn .RX_INIT .TX_INIT)
        3000).1.2 (by decide)).1,
      ((C8_rejected_registration_keeps_state scenarioDevice (stKnxIn .RX_INIT .TX_INIT)
        3000).1.2 (by decide)).2.1⟩,
    ((C8_rejected_registration_keeps_state scenarioDevice (stKnxIn .RX_INIT .TX_INIT)
      NULL).2.2.2.2 (by decide)).1⟩

/-- C9: for every pair (rx state, tx state) and either back end, `IsActive` returns true
exactly when the rx state is one of RECEPTION_STARTED, RECEPTION_ADDRESSED,
RECEPTION_LENGTH_INVALID, RECEPTION_NOT_ADDRESSED or the tx state is
TX_TELEGRAM_SENDING_ONGOING or TX_WAITING_ACK; it returns false when each of the rx and tx
states is RESET, STOPPED, INIT or IDLE. -/
theorem C9_isActive_characterisation (s : KnxTpUart) (t : StKnxCoupler) :
    (s.IsActive = true ↔
      ((s._rx.state = .RX_EIB_TELEGRAM_RECEPTION_STARTED ∨
        s._rx.state = .RX_EIB_TELEGRAM_RECEPTION_ADDRESSED ∨
        s._rx.state = .RX_EIB_TELEGRAM_RECEPTION_LENGTH_INVALID ∨
        s._rx.state = .RX_EIB_TELEGRAM_RECEPTION_NOT_ADDRESSED) ∨
       (s._tx.state = .TX_TELEGRAM_SENDING_ONGOING ∨ s._tx.state = .TX_WAITING_ACK))) ∧
    (((s._rx.state = .RX_RESET ∨ s._rx.state = .RX_STOPPED ∨ s._rx.state = .RX_INIT ∨
        s._rx.state = .RX_IDLE_WAITING_FOR_CTRL_FIELD) ∧
      (s._tx.state = .TX_RESET ∨ s._tx.state = .TX_STOPPED ∨ s._tx.state = .TX_INIT ∨
        s._tx.state = .TX_IDLE)) → s.IsActive = false) ∧
    (t.IsActive = true ↔
      ((t._rx.state = .RX_EIB_TELEGRAM_RECEPTION_STARTED ∨
        t._rx.state = .RX_EIB_TELEGRAM_RECEPTION_ADDRESSED ∨
        t._rx.state = .RX_EIB_TELEGRAM_RECEPTION_LENGTH_INVALID ∨
        t._rx.state = .RX_EIB_TELEGRAM_RECEPTION_NOT_ADDRESSED) ∨
       (t._tx.state = .TX_TELEGRAM_SENDING_ONGOING ∨ t._tx.state = .TX_WAITING_ACK))) ∧
    (((t._rx.state = .RX_RESET ∨ t._rx.state = .RX_STOPPED ∨ t._rx.state = .RX_INIT ∨
        t._rx.state = .RX_IDLE_WAITING_FOR_CTRL_FIELD) ∧
      (t._tx.state = .TX_RESET ∨ t._tx.state = .TX_STOPPED ∨ t._tx.state = .TX_INIT ∨
        t._tx.state = .TX_IDLE)) → t.IsActive = false) := by
  refine ⟨?_, ?_, ?_, ?_⟩
  · unfold KnxTpUart.IsActive
    cases s._rx.state <;> cases s._tx.state <;>
      simp [e_BusCouplerRxState.toNat, e_BusCouplerTxState.toNat]
  · unfold KnxTpUart.IsActive
    cases s._rx.state <;> cases s._tx.state <;>
      simp [e_BusCouplerRxState.toNat, e_BusCouplerTxState.toNat]
  · unfold StKnxCoupler.IsActive
    cases t._rx.state <;> cases t._tx.state <;>
      simp [e_BusCouplerRxState.toNat, e_BusCouplerTxState.toNat]
  · unfold StKnxCoupler.IsActive
    cases t._rx.state <;> cases t._tx.state <;>
      simp [e_BusCouplerRxState.toNat, e_BusCouplerTxState.toNat]

/-- Witness of C9: the engine after a completed send (tx `TX_WAITING_ACK`) is active; the
scenario device (rx and tx idle) and a stopped `StKnxCoupler` object are not. -/
theorem C9_isActive_characterisation_witness :
    engineAfterSend.dev.IsActive = true ∧ scenarioDevice.IsActive = false ∧
    (stKnxIn .RX_STOPPED .TX_STOPPED).IsActive = false :=
  ⟨(C9_isActive_characterisation engineAfterSend.dev (stKnxIn .RX_STOPPED .TX_STOPPED)).1.2
      (Or.inr (Or.inr (by decide))),
    (C9_isActive_characterisation scenarioDevice (stKnxIn .RX_STOPPED .TX_STOPPED)).2.1
      ⟨Or.inr (Or.inr (Or.inr (by decide))), Or.inr (Or.inr (Or.inr (by decide)))⟩,
    (C9_isActive_characterisation scenarioDevice (stKnxIn .RX_STOPPED .TX_STOPPED)).2.2.2
      ⟨Or.inr (Or.inl (by decide)), Or.inr (Or.inl (by decide))⟩⟩

/-- `IsActive` returns false for every coupler object, of either back end, in which the rx
state or the tx state is still RESET, STOPPED or INIT and the other state machine is not in an
active state (rx state not beyond `RX_IDLE_WAITING_FOR_CTRL_FIELD`, tx state not beyond
`TX_IDLE`); in particular when both are still RESET, STOPPED or INIT. -/
theorem isActive_false_when_uninitialised_and_quiet (s : KnxTpUart) (t : StKnxCoupler)
    (hs : ((s._rx.state = .RX_RESET ∨ s._rx.state = .RX_STOPPED ∨ s._rx.state = .RX_INIT) ∧
        (s._tx.state = .TX_RESET ∨ s._tx.state = .TX_STOPPED ∨ s._tx.state = .TX_INIT ∨
          s._tx.state = .TX_IDLE)) ∨
      ((s._tx.state = .TX_RESET ∨ s._tx.state = .TX_STOPPED ∨ s._tx.state = .TX_INIT) ∧
        (s._rx.state = .RX_RESET ∨ s._rx.state = .RX_STOPPED ∨ s._rx.state = .RX_INIT ∨
          s._rx.state = .RX_IDLE_WAITING_FOR_CTRL_FIELD)))
    (ht : ((t._rx.state = .RX_RESET ∨ t._rx.state = .RX_STOPPED ∨ t._rx.state = .RX_INIT) ∧
        (t._tx.state = .TX_RESET ∨ t._tx.state = .TX_STOPPED ∨ t._tx.state = .TX_INIT ∨
          t._tx.state = .TX_IDLE)) ∨
      ((t._tx.state = .TX_RESET ∨ t._tx.state = .TX_STOPPED ∨ t._tx.state = .TX_INIT) ∧
        (t._rx.state = .RX_RESET ∨ t._rx.state = .RX_STOPPED ∨ t._rx.state = .RX_INIT ∨
          t._rx.state = .RX_IDLE_WAITING_FOR_CTRL_FIELD))) :
    s.IsActive = false ∧ t.IsActive = false := by
  constructor
  · unfold KnxTpUart.IsActive
    revert hs
    cases s._rx.state <;> cases s._tx.state <;>
      simp [e_BusCouplerRxState.toNat, e_BusCouplerTxState.toNat]
  · unfold StKnxCoupler.IsActive
    revert ht
    cases t._rx.state <;> cases t._tx.state <;>
      simp [e_BusCouplerRxState.toNat, e_BusCouplerTxState.toNat]

/-! ## Layout of the state indication byte (macros of `KnxTpUart.h`) -/

set_option maxRecDepth 100000 in
/-- C11: the state-indication byte layout is a partition of the 8 bits. The status-code mask
`TPUART_STATE_INDICATION_MASK` (0x07, the low 3 bits) and the five flag masks slave collision
0x80, receive error 0x40, transmit error 0x20, protocol error 0x10 and temperature warning 0x08
are pairwise disjoint, each flag mask is a single bit above the low 3 bits, and their bitwise
OR is 0xFF. Hence among the bytes recognised as a state indication (`(b AND 0x07) = 0x07`)
each of the 32 combinations of the five flags is encoded by exactly one byte, which is 0x07
plus the masks of the flags that are set. -/
theorem C11_state_indication_layout :
    (TPUART_STATE_INDICATION_MASK = 0x07 ∧ TPUART_STATE_INDICATION = 0x07 ∧
      TPUART_STATE_INDICATION_SLAVE_COLLISION_MASK = 2 ^ 7 ∧
      TPUART_STATE_INDICATION_RECEIVE_ERROR_MASK = 2 ^ 6 ∧
      TPUART_STATE_INDICATION_TRANSMIT_ERROR_MASK = 2 ^ 5 ∧
      TPUART_STATE_INDICATION_PROTOCOL_ERROR_MASK = 2 ^ 4 ∧
      TPUART_STATE_INDICATION_TEMP_WARNING_MASK = 2 ^ 3) ∧
    ([TPUART_STATE_INDICATION_MASK, TPUART_STATE_INDICATION_SLAVE_COLLISION_MASK,
        TPUART_STATE_INDICATION_RECEIVE_ERROR_MASK, TPUART_STATE_INDICATION_TRANSMIT_ERROR_MASK,
        TPUART_STATE_INDICATION_PROTOCOL_ERROR_MASK,
        TPUART_STATE_INDICATION_TEMP_WARNING_MASK].Pairwise (fun m n => m &&& n = 0)) ∧
    (TPUART_STATE_INDICATION_MASK ||| TPUART_STATE_INDICATION_SLAVE_COLLISION_MASK |||
        TPUART_STATE_INDICATION_RECEIVE_ERROR_MASK ||| TPUART_STATE_INDICATION_TRANSMIT_ERROR_MASK |||
        TPUART_STATE_INDICATION_PROTOCOL_ERROR_MASK |||
        TPUART_STATE_INDICATION_TEMP_WARNING_MASK = 0xFF) ∧
    (∀ sc re te pe tw : Bool, ∀ b : Nat, b < 256 →
      ((b &&& TPUART_STATE_INDICATION_MASK = TPUART_STATE_INDICATION ∧
          (b &&& TPUART_STATE_INDICATION_SLAVE_COLLISION_MASK != 0) = sc ∧
          (b &&& TPUART_STATE_INDICATION_RECEIVE_ERROR_MASK != 0) = re ∧
          (b &&& TPUART_STATE_INDICATION_TRANSMIT_ERROR_MASK != 0) = te ∧
          (b &&& TPUART_STATE_INDICATION_PROTOCOL_ERROR_MASK != 0) = pe ∧
          (b &&& TPUART_STATE_INDICATION_TEMP_WARNING_MASK != 0) = tw) ↔
        b = TPUART_STATE_INDICATION +
          (if sc then TPUART_STATE_INDICATION_SLAVE_COLLISION_MASK else 0) +
          (if re then TPUART_STATE_INDICATION_RECEIVE_ERROR_MASK else 0) +
          (if te then TPUART_STATE_INDICATION_TRANSMIT_ERROR_MASK else 0) +
          (if pe then TPUART_STATE_INDICATION_PROTOCOL_ERROR_MASK else 0) +
          (if tw then TPUART_STATE_INDICATION_TEMP_WARNING_MASK else 0))) ∧
    (∀ sc re te pe tw : Bool,
      ((List.range 256).filter (fun b =>
        b &&& TPUART_STATE_INDICATION_MASK == TPUART_STATE_INDICATION &&
        (b &&& TPUART_STATE_INDICATION_SLAVE_COLLISION_MASK != 0) == sc &&
        (b &&& TPUART_STATE_INDICATION_RECEIVE_ERROR_MASK != 0) == re &&
        (b &&& TPUART_STATE_INDICATION_TRANSMIT_ERROR_MASK != 0) == te &&
        (b &&& TPUART_STATE_INDICATION_PROTOCOL_ERROR_MASK != 0) == pe &&
        (b &&& TPUART_STATE_INDICATION_TEMP_WARNING_MASK != 0) == tw)).length = 1) ∧
    ((List.range 256).filter
      (fun b => b &&& TPUART_STATE_INDICATION_MASK == TPUART_STATE_INDICATION)).length = 32 := by
  refine ⟨by decide, by decide, by decide, ?_, ?_, by decide⟩
  · intro sc re te pe tw
    cases sc <;> cases re <;> cases te <;> cases pe <;> cases tw <;> decide
  · intro sc re te pe tw
    cases sc <;> cases re <;> cases te <;> cases pe <;> cases tw <;> decide

/-- Witness of C11: byte 0x8F is a byte value recognised as a state indication, and it is the
one byte encoding "slave collision and temperature warning, no other flag". -/
theorem C11_state_indication_layout_witness :
    (0x8F < 256 ∧ 0x8F &&& TPUART_STATE_INDICATION_MASK = TPUART_STATE_INDICATION) ∧
    (0x8F &&& TPUART_STATE_INDICATION_SLAVE_COLLISION_MASK != 0) = true ∧
    (0x8F &&& TPUART_STATE_INDICATION_RECEIVE_ERROR_MASK != 0) = false ∧
    (0x8F &&& TPUART_STATE_INDICATION_TEMP_WARNING_MASK != 0) = true :=
  ⟨by decide,
    ((C11_state_indication_layout.2.2.2.1 true false false false true 0x8F (by decide)).2
      (by decide)).2.1,
    ((C11_state_indication_layout.2.2.2.1 true false false false true 0x8F (by decide)).2
      (by decide)).2.2.1,
    ((C11_state_indication_layout.2.2.2.1 true false false false true 0x8F (by decide)).2
      (by decide)).2.2.2.2.2⟩

/-! ## The two back ends (inline functions of the headers) -/

/-- C12: the two back ends implement the same contract for the operations defined in the
headers. For every `KnxTpUart` object and `StKnxCoupler` object in the same coupler state (rx
state, tx state, registered callbacks, state indication, addressed com object index) and every
argument, `SetEvtCallback`, `SetAckCallback`, `IsActive`, `GetStateIndication` and
`GetTargetedComObjectIndex` of `StKnxCoupler` return the same value as those of `KnxTpUart`,
and the resulting objects are in the same coupler state again; when the two objects agree on
all their common members, so do the resulting objects. -/
theorem C12_back_ends_agree (s : KnxTpUart) (t : StKnxCoupler) (f : Nat)
    (h : s.contractState = t.contractState) :
    ((t.SetEvtCallback f).1 = (s.SetEvtCallback f).1 ∧
      (t.SetEvtCallback f).2.contractState = (s.SetEvtCallback f).2.contractState ∧
      (s.members = t.members →
        (t.SetEvtCallback f).2.members = (s.SetEvtCallback f).2.members)) ∧
    ((t.SetAckCallback f).1 = (s.SetAckCallback f).1 ∧
      (t.SetAckCallback f).2.contractState = (s.SetAckCallback f).2.contractState ∧
      (s.members = t.members →
        (t.SetAckCallback f).2.members = (s.SetAckCallback f).2.members)) ∧
    t.IsActive = s.IsActive ∧
    t.GetStateIndication = s.GetStateIndication ∧
    t.GetTargetedComObjectIndex = s.GetTargetedComObjectIndex ∧
    ((t.SetEvtCallback f).2._extTxCb = t._extTxCb ∧
      (t.SetAckCallback f).2._extTxCb = t._extTxCb ∧
      (s.SetEvtCallback f).2._resetRespTimeout = s._resetRespTimeout ∧
      (s.SetEvtCallback f).2._resetAttempts = s._resetAttempts ∧
      (s.SetAckCallback f).2._resetRespTimeout = s._resetRespTimeout ∧
      (s.SetAckCallback f).2._resetAttempts = s._resetAttempts) := by
  have hrx : s._rx.state = t._rx.state := congrArg ContractState.rxState h
  have htx : s._tx.state = t._tx.state := congrArg ContractState.txState h
  have hevt : s._evtCallbackFct = t._evtCallbackFct := congrArg ContractState.evtCallbackFct h
  have hack : s._tx.ackFctPtr = t._tx.ackFctPtr := congrArg ContractState.ackFctPtr h
  have hsi : s._stateIndication = t._stateIndication :=
    congrArg ContractState.stateIndication h
  have hidx : s._rx.addressedComObjectIndex = t._rx.addressedComObjectIndex :=
    congrArg ContractState.addressedComObjectIndex h
  refine ⟨⟨?_, ?_, ?_⟩, ⟨?_, ?_, ?_⟩, ?_, hsi.symm, hidx.symm, ?_⟩
  · simp only [StKnxCoupler.SetEvtCallback, KnxTpUart.SetEvtCallback, hrx, htx]
    split <;> [rfl; (split <;> rfl)]
  · simp only [StKnxCoupler.SetEvtCallback, KnxTpUart.SetEvtCallback, hrx, htx]
    split
    · exact h.symm
    · split
      · exact h.symm
      · simp [StKnxCoupler.contractState, KnxTpUart.contractState, hrx, htx, hack, hsi, hidx]
  · intro hm
    simp only [StKnxCoupler.SetEvtCallback, KnxTpUart.SetEvtCallback, hrx, htx]
    split
    · exact hm.symm
    · split
      · exact hm.symm
      · simp only [StKnxCoupler.members, KnxTpUart.members, CouplerMembers.mk.injEq] at hm
        obtain ⟨h1, h2, h3, h4, h5, h6, h7, h8, h9⟩ := hm
        simp [StKnxCoupler.members, KnxTpUart.members, h1, h2, h3, h4, h5, h6, h7, h8, h9]
  · simp only [StKnxCoupler.SetAckCallback, KnxTpUart.SetAckCallback, hrx, htx]
    split <;> [rfl; (split <;> rfl)]
  · simp only [StKnxCoupler.SetAckCallback, KnxTpUart.SetAckCallback, hrx, htx]
    split
    · exact h.symm
    · split
      · exact h.symm
      · simp [StKnxCoupler.contractState, KnxTpUart.contractState, hrx, htx, hevt, hsi, hidx]
  · intro hm
    simp only [StKnxCoupler.SetAckCallback, KnxTpUart.SetAckCallback, hrx, htx]
    split
    · exact hm.symm
    · split
      · exact hm.symm
      · simp only [StKnxCoupler.members, KnxTpUart.members, CouplerMembers.mk.injEq] at hm
        obtain ⟨h1, h2, h3, h4, h5, h6, h7, h8, h9⟩ := hm
        simp [StKnxCoupler.members, KnxTpUart.members, h1, h2, h3, h4, h5, h6, h7, h8, h9]
  · simp only [StKnxCoupler.IsActive, KnxTpUart.IsActive, hrx, htx]
  · refine ⟨?_, ?_, ?_, ?_, ?_, ?_⟩
    · unfold StKnxCoupler.SetEvtCallback; split <;> [rfl; (split <;> rfl)]
    · unfold StKnxCoupler.SetAckCallback; split <;> [rfl; (split <;> rfl)]
    · unfold KnxTpUart.SetEvtCallback; split <;> [rfl; (split <;> rfl)]
    · unfold KnxTpUart.SetEvtCallback; split <;> [rfl; (split <;> rfl)]
    · unfold KnxTpUart.SetAckCallback; split <;> [rfl; (split <;> rfl)]
    · unfold KnxTpUart.SetAckCallback; split <;> [rfl; (split <;> rfl)]

/-- Witness of C12: a `KnxTpUart` object and a `StKnxCoupler` object both in the init state are
in the same coupler state; registering the callback at address 1000 returns 0 in both and
leaves them in the same coupler state, with that callback registered. -/
theorem C12_back_ends_agree_witness :
    (tpUartIn .RX_INIT .TX_INIT).contractState = (stKnxIn .RX_INIT .TX_INIT).contractState ∧
    ((stKnxIn .RX_INIT .TX_INIT).SetEvtCallback 1000).1 = 0 ∧
    ((stKnxIn .RX_INIT .TX_INIT).SetEvtCallback 1000).1 =
      ((tpUartIn .RX_INIT .TX_INIT).SetEvtCallback 1000).1 ∧
    ((stKnxIn .RX_INIT .TX_INIT).SetAckCallback 1000).2.contractState =
      ((tpUartIn .RX_INIT .TX_INIT).SetAckCallback 1000).2.contractState ∧
    ((stKnxIn .RX_INIT .TX_INIT).SetAckCallback 1000).2.contractState.ackFctPtr = 1000 ∧
    scenarioStKnx.IsActive = scenarioDevice.IsActive :=
  ⟨by decide, by decide,
    (C12_back_ends_agree (tpUartIn .RX_INIT .TX_INIT) (stKnxIn .RX_INIT .TX_INIT) 1000
      (by decide)).1.1,
    (C12_back_ends_agree (tpUartIn .RX_INIT .TX_INIT) (stKnxIn .RX_INIT .TX_INIT) 1000
      (by decide)).2.1.2.1,
    by decide,
    (C12_back_ends_agree scenarioDevice scenarioStKnx 1000 (by decide)).2.2.1⟩

/-! ## Frame of the callback registration (inline functions of the headers) -/

/-- C13: callback registration never touches the reception or transmission state machines.
For either back end, when `SetEvtCallback` returns OK the resulting object is the original one
with only the event-callback member replaced, and when `SetAckCallback` returns OK it is the
original one with only the `ackFctPtr` member of the tx context replaced: the rx context
(state, received telegram, addressedComObjectIndex), the tx state, sentTelegram,
nbRemainingBytes, txByteIndex, the state indication and the attached object list and table are
unchanged, and the rx and tx states are still `RX_INIT` and `TX_INIT`. -/
theorem C13_registration_frame (s : KnxTpUart) (t : StKnxCoupler) (f : Nat) :
    ((s.SetEvtCallback f).1 = KNX_BUSCOUPLER_OK →
      (s.SetEvtCallback f).2 = { s with _evtCallbackFct := f } ∧
      (s.SetEvtCallback f).2._rx = s._rx ∧ (s.SetEvtCallback f).2._tx = s._tx ∧
      (s.SetEvtCallback f).2._stateIndication = s._stateIndication ∧
      (s.SetEvtCallback f).2._comObjectsList = s._comObjectsList ∧
      (s.SetEvtCallback f).2._orderedIndexTable = s._orderedIndexTable ∧
      (s.SetEvtCallback f).2._assignedComObjectsNb = s._assignedComObjectsNb ∧
      (s.SetEvtCallback f).2._rx.state = .RX_INIT ∧
      (s.SetEvtCallback f).2._tx.state = .TX_INIT) ∧
    ((s.SetAckCallback f).1 = KNX_BUSCOUPLER_OK →
      (s.SetAckCallback f).2 = { s with _tx := { s._tx with ackFctPtr := f } } ∧
      (s.SetAckCallback f).2._rx = s._rx ∧
      (s.SetAckCallback f).2._tx.state = s._tx.state ∧
      (s.SetAckCallback f).2._tx.sentTelegram = s._tx.sentTelegram ∧
      (s.SetAckCallback f).2._tx.nbRemainingBytes = s._tx.nbRemainingBytes ∧
      (s.SetAckCallback f).2._tx.txByteIndex = s._tx.txByteIndex ∧
      (s.SetAckCallback f).2._evtCallbackFct = s._evtCallbackFct ∧
      (s.SetAckCallback f).2._stateIndication = s._stateIndication ∧
      (s.SetAckCallback f).2._comObjectsList = s._comObjectsList ∧
      (s.SetAckCallback f).2._orderedIndexTable = s._orderedIndexTable ∧
      (s.SetAckCallback f).2._assignedComObjectsNb = s._assignedComObjectsNb ∧
      (s.SetAckCallback f).2._rx.state = .RX_INIT ∧
      (s.SetAckCallback f).2._tx.state = .TX_INIT) ∧
    ((t.SetEvtCallback f).1 = KNX_BUSCOUPLER_OK →
      (t.SetEvtCallback f).2 = { t with _evtCallbackFct := f } ∧
      (t.SetEvtCallback f).2._rx = t._rx ∧ (t.SetEvtCallback f).2._tx = t._tx ∧
      (t.SetEvtCallback f).2._stateIndication = t._stateIndication ∧
      (t.SetEvtCallback f).2._comObjectsList = t._comObjectsList ∧
      (t.SetEvtCallback f).2._orderedIndexTable = t._orderedIndexTable ∧
      (t.SetEvtCallback f).2._assignedComObjectsNb = t._assignedComObjectsNb ∧
      (t.SetEvtCallback f).2._rx.state = .RX_INIT ∧
      (t.SetEvtCallback f).2._tx.state = .TX_INIT) ∧
    ((t.SetAckCallback f).1 = KNX_BUSCOUPLER_OK →
      (t.SetAckCallback f).2 = { t with _tx := { t._tx with ackFctPtr := f } } ∧
      (t.SetAckCallback f).2._rx = t._rx ∧
      (t.SetAckCallback f).2._tx.state = t._tx.state ∧
      (t.SetAckCallback f).2._tx.sentTelegram = t._tx.sentTelegram ∧
      (t.SetAckCallback f).2._tx.nbRemainingBytes = t._tx.nbRemainingBytes ∧
      (t.SetAckCallback f).2._tx.txByteIndex = t._tx.txByteIndex ∧
      (t.SetAckCallback f).2._evtCallbackFct = t._evtCallbackFct ∧
      (t.SetAckCallback f).2._stateIndication = t._stateIndication ∧
      (t.SetAckCallback f).2._comObjectsList = t._comObjectsList ∧
      (t.SetAckCallback f).2._orderedIndexTable = t._orderedIndexTable ∧
      (t.SetAckCallback f).2._assignedComObjectsNb = t._assignedComObjectsNb ∧
      (t.SetAckCallback f).2._rx.state = .RX_INIT ∧
      (t.SetAckCallback f).2._tx.state = .TX_INIT) := by
  refine ⟨?_, ?_, ?_, ?_⟩
  · unfold KnxTpUart.SetEvtCallback
    split
    · intro h; simp [KNX_BUSCOUPLER_OK, KNX_BUSCOUPLER_ERROR] at h
    · split
      · intro h; simp [KNX_BUSCOUPLER_OK, KNX_BUSCOUPLER_ERROR_NOT_INIT_STATE] at h
      · rename_i h1 h2
        intro _
        simp only [not_or, not_not] at h2
        simp [h2.1, h2.2]
  · unfold KnxTpUart.SetAckCallback
    split
    · intro h; simp [KNX_BUSCOUPLER_OK, KNX_BUSCOUPLER_ERROR] at h
    · split
      · intro h; simp [KNX_BUSCOUPLER_OK, KNX_BUSCOUPLER_ERROR_NOT_INIT_STATE] at h
      · rename_i h1 h2
        intro _
        simp only [not_or, not_not] at h2
        simp [h2.1, h2.2]
  · unfold StKnxCoupler.SetEvtCallback
    split
    · intro h; simp [KNX_BUSCOUPLER_OK, KNX_BUSCOUPLER_ERROR] at h
    · split
      · intro h; simp [KNX_BUSCOUPLER_OK, KNX_BUSCOUPLER_ERROR_NOT_INIT_STATE] at h
      · rename_i h1 h2
        intro _
        simp only [not_or, not_not] at h2
        simp [h2.1, h2.2]
  · unfold StKnxCoupler.SetAckCallback
    split
    · intro h; simp [KNX_BUSCOUPLER_OK, KNX_BUSCOUPLER_ERROR] at h
    · split
      · intro h; simp [KNX_BUSCOUPLER_OK, KNX_BUSCOUPLER_ERROR_NOT_INIT_STATE] at h
      · rename_i h1 h2
        intro _
        simp only [not_or, not_not] at h2
        simp [h2.1, h2.2]

/-- Witness of C13: in an object in the init state with the scenario objects attached, the
registration of the ack callback at address 2000 returns OK, and the object afterwards is the
one before with only `ackFctPtr` replaced, rx and tx states still `RX_INIT` and `TX_INIT`. -/
theorem C13_registration_frame_witness :
    (((tpUartIn .RX_INIT .TX_INIT).AttachComObjectsList scenarioObjects).2.SetAckCallback
      2000).1 = KNX_BUSCOUPLER_OK ∧
    (((tpUartIn .RX_INIT .TX_INIT).AttachComObjectsList scenarioObjects).2.SetAckCallback
      2000).2._comObjectsList = scenarioObjects ∧
    (((tpUartIn .RX_INIT .TX_INIT).AttachComObjectsList scenarioObjects).2.SetAckCallback
      2000).2._tx.state = .TX_INIT :=
  ⟨by decide,
    ((C13_registration_frame ((tpUartIn .RX_INIT .TX_INIT).AttachComObjectsList
      scenarioObjects).2 (stKnxIn .RX_INIT .TX_INIT) 2000).2.1 (by decide)).2.2.2.2.2.2.2.2.1,
    ((C13_registration_frame ((tpUartIn .RX_INIT .TX_INIT).AttachComObjectsList
      scenarioObjects).2 (stKnxIn .RX_INIT .TX_INIT) 2000).2.1
      (by decide)).2.2.2.2.2.2.2.2.2.2.2.2⟩

/-! ## Classes of the bytes sent by the chip (macros of `KnxTpUart.h`) -/

/-- The two low bits of a byte matching the control-field pattern are 00. -/
theorem low_bits_of_control_field (b : Nat)
    (h : b &&& EIB_CONTROL_FIELD_PATTERN_MASK = EIB_CONTROL_FIELD_VALID_PATTERN) :
    b &&& 3 = 0 := by
  have h1 : b &&& 3 = (b &&& EIB_CONTROL_FIELD_PATTERN_MASK) &&& 3 := by
    rw [Nat.land_assoc]
    rfl
  rw [h1, h]
  rfl

/-- The two low bits of a byte recognised as a state indication are 11. -/
theorem low_bits_of_state_indication (b : Nat)
    (h : b &&& TPUART_STATE_INDICATION_MASK = TPUART_STATE_INDICATION) :
    b &&& 3 = 3 := by
  have h1 : b &&& 3 = (b &&& TPUART_STATE_INDICATION_MASK) &&& 3 := by
    rw [Nat.land_assoc]
    rfl
  rw [h1, h]
  rfl

/-- C14: the classes of byte the chip can send are pairwise disjoint. For every byte `b` (indeed
every natural number) no two of the following hold together, so at most one of them holds: `b`
is a valid control field (`(b AND 0xD3) = 0x90`), `b` is the reset indication (0x03), `b` is
data-confirm-success (0x8B), `b` is data-confirm-failed (0x0B), `b` is a state indication
(`(b AND 0x07) = 0x07`). -/
theorem C14_chip_byte_classes_disjoint (b : Nat) :
    (EIB_CONTROL_FIELD_PATTERN_MASK = 0xD3 ∧ EIB_CONTROL_FIELD_VALID_PATTERN = 0x90 ∧
      TPUART_RESET_INDICATION = 0x03 ∧ TPUART_DATA_CONFIRM_SUCCESS = 0x8B ∧
      TPUART_DATA_CONFIRM_FAILED = 0x0B ∧ TPUART_STATE_INDICATION_MASK = 0x07 ∧
      TPUART_STATE_INDICATION = 0x07) ∧
    (¬ (b &&& EIB_CONTROL_FIELD_PATTERN_MASK = EIB_CONTROL_FIELD_VALID_PATTERN ∧
        b = TPUART_RESET_INDICATION) ∧
      ¬ (b &&& EIB_CONTROL_FIELD_PATTERN_MASK = EIB_CONTROL_FIELD_VALID_PATTERN ∧
        b = TPUART_DATA_CONFIRM_SUCCESS) ∧
      ¬ (b &&& EIB_CONTROL_FIELD_PATTERN_MASK = EIB_CONTROL_FIELD_VALID_PATTERN ∧
        b = TPUART_DATA_CONFIRM_FAILED) ∧
      ¬ (b &&& EIB_CONTROL_FIELD_PATTERN_MASK = EIB_CONTROL_FIELD_VALID_PATTERN ∧
        b &&& TPUART_STATE_INDICATION_MASK = TPUART_STATE_INDICATION) ∧
      ¬ (b = TPUART_RESET_INDICATION ∧ b = TPUART_DATA_CONFIRM_SUCCESS) ∧
      ¬ (b = TPUART_RESET_INDICATION ∧ b = TPUART_DATA_CONFIRM_FAILED) ∧
      ¬ (b = TPUART_RESET_INDICATION ∧
        b &&& TPUART_STATE_INDICATION_MASK = TPUART_STATE_INDICATION) ∧
      ¬ (b = TPUART_DATA_CONFIRM_SUCCESS ∧ b = TPUART_DATA_CONFIRM_FAILED) ∧
      ¬ (b = TPUART_DATA_CONFIRM_SUCCESS ∧
        b &&& TPUART_STATE_INDICATION_MASK = TPUART_STATE_INDICATION) ∧
      ¬ (b = TPUART_DATA_CONFIRM_FAILED ∧
        b &&& TPUART_STATE_INDICATION_MASK = TPUART_STATE_INDICATION)) ∧
    ([decide (b &&& EIB_CONTROL_FIELD_PATTERN_MASK = EIB_CONTROL_FIELD_VALID_PATTERN),
        decide (b = TPUART_RESET_INDICATION), decide (b = TPUART_DATA_CONFIRM_SUCCESS),
        decide (b = TPUART_DATA_CONFIRM_FAILED),
        decide (b &&& TPUART_STATE_INDICATION_MASK = TPUART_STATE_INDICATION)].count true
      ≤ 1) := by
  have hcr : ¬ (b &&& EIB_CONTROL_FIELD_PATTERN_MASK = EIB_CONTROL_FIELD_VALID_PATTERN ∧
      b = TPUART_RESET_INDICATION) := by
    rintro ⟨h, rfl⟩; exact absurd h (by decide)
  have hcs : ¬ (b &&& EIB_CONTROL_FIELD_PATTERN_MASK = EIB_CONTROL_FIELD_VALID_PATTERN ∧
      b = TPUART_DATA_CONFIRM_SUCCESS) := by
    rintro ⟨h, rfl⟩; exact absurd h (by decide)
  have hcf : ¬ (b &&& EIB_CONTROL_FIELD_PATTERN_MASK = EIB_CONTROL_FIELD_VALID_PATTERN ∧
      b = TPUART_DATA_CONFIRM_FAILED) := by
    rintro ⟨h, rfl⟩; exact absurd h (by decide)
  have hci : ¬ (b &&& EIB_CONTROL_FIELD_PATTERN_MASK = EIB_CONTROL_FIELD_VALID_PATTERN ∧
      b &&& TPUART_STATE_INDICATION_MASK = TPUART_STATE_INDICATION) := by
    rintro ⟨h1, h2⟩
    have h3 := low_bits_of_control_field b h1
    have h4 := low_bits_of_state_indication b h2
    omega
  have hrs : ¬ (b = TPUART_RESET_INDICATION ∧ b = TPUART_DATA_CONFIRM_SUCCESS) := by
    rintro ⟨rfl, h⟩; exact absurd h (by decide)
  have hrf : ¬ (b = TPUART_RESET_INDICATION ∧ b = TPUART_DATA_CONFIRM_FAILED) := by
    rintro ⟨rfl, h⟩; exact absurd h (by decide)
  have hri : ¬ (b = TPUART_RESET_INDICATION ∧
      b &&& TPUART_STATE_INDICATION_MASK = TPUART_STATE_INDICATION) := by
    rintro ⟨rfl, h⟩; exact absurd h (by decide)
  have hsf : ¬ (b = TPUART_DATA_CONFIRM_SUCCESS ∧ b = TPUART_DATA_CONFIRM_FAILED) := by
    rintro ⟨rfl, h⟩; exact absurd h (by decide)
  have hsi : ¬ (b = TPUART_DATA_CONFIRM_SUCCESS ∧
      b &&& TPUART_STATE_INDICATION_MASK = TPUART_STATE_INDICATION) := by
    rintro ⟨rfl, h⟩; exact absurd h (by decide)
  have hfi : ¬ (b = TPUART_DATA_CONFIRM_FAILED ∧
      b &&& TPUART_STATE_INDICATION_MASK = TPUART_STATE_INDICATION) := by
    rintro ⟨rfl, h⟩; exact absurd h (by decide)
  refine ⟨by decide, ⟨hcr, hcs, hcf, hci, hrs, hrf, hri, hsf, hsi, hfi⟩, ?_⟩
  have key : ∀ p1 p2 p3 p4 p5 : Bool,
      ¬ (p1 = true ∧ p2 = true) → ¬ (p1 = true ∧ p3 = true) → ¬ (p1 = true ∧ p4 = true) →
      ¬ (p1 = true ∧ p5 = true) → ¬ (p2 = true ∧ p3 = true) → ¬ (p2 = true ∧ p4 = true) →
      ¬ (p2 = true ∧ p5 = true) → ¬ (p3 = true ∧ p4 = true) → ¬ (p3 = true ∧ p5 = true) →
      ¬ (p4 = true ∧ p5 = true) → [p1, p2, p3, p4, p5].count true ≤ 1 := by
    intro p1 p2 p3 p4 p5
    cases p1 <;> cases p2 <;> cases p3 <;> cases p4 <;> cases p5 <;> simp
  exact key _ _ _ _ _ (by simpa using hcr) (by simpa using hcs) (by simpa using hcf)
    (by simpa using hci) (by simpa using hrs) (by simpa using hrf) (by simpa using hri)
    (by simpa using hsf) (by simpa using hsi) (by simpa using hfi)

/-- Witness of C14: byte 0x8B is data-confirm-success, hence neither a valid control field nor a
state indication; byte 0xBC is a valid control field, hence not a state indication. -/
theorem C14_chip_byte_classes_disjoint_witness :
    ¬ (0x8B &&& EIB_CONTROL_FIELD_PATTERN_MASK = EIB_CONTROL_FIELD_VALID_PATTERN) ∧
    ¬ (0x8B &&& TPUART_STATE_INDICATION_MASK = TPUART_STATE_INDICATION) ∧
    (0xBC &&& EIB_CONTROL_FIELD_PATTERN_MASK = EIB_CONTROL_FIELD_VALID_PATTERN ∧
      ¬ (0xBC &&& TPUART_STATE_INDICATION_MASK = TPUART_STATE_INDICATION)) :=
  ⟨fun h => (C14_chip_byte_classes_disjoint 0x8B).2.1.2.1 ⟨h, rfl⟩,
    fun h => (C14_chip_byte_classes_disjoint 0x8B).2.1.2.2.2.2.2.2.2.2.1 ⟨rfl, h⟩,
    by decide,
    fun h => (C14_chip_byte_classes_disjoint 0xBC).2.1.2.2.2.1 ⟨by decide, h⟩⟩

/-! ## Registration and activity (inline functions of the headers) -/

/-- C15: callbacks cannot be replaced while a reception or a transmission is in flight. For
either back end, in every coupler state in which `IsActive()` returns true, `SetEvtCallback` and
`SetAckCallback` return a code other than `KNX_BUSCOUPLER_OK` for every argument; equivalently,
in every state in which one of them returns `KNX_BUSCOUPLER_OK`, `IsActive()` is false. -/
theorem C15_no_registration_while_active (s : KnxTpUart) (t : StKnxCoupler) :
    (s.IsActive = true →
      ∀ f, (s.SetEvtCallback f).1 ≠ KNX_BUSCOUPLER_OK ∧
        (s.SetAckCallback f).1 ≠ KNX_BUSCOUPLER_OK) ∧
    (∀ f, (s.SetEvtCallback f).1 = KNX_BUSCOUPLER_OK ∨
        (s.SetAckCallback f).1 = KNX_BUSCOUPLER_OK → s.IsActive = false) ∧
    (t.IsActive = true →
      ∀ f, (t.SetEvtCallback f).1 ≠ KNX_BUSCOUPLER_OK ∧
        (t.SetAckCallback f).1 ≠ KNX_BUSCOUPLER_OK) ∧
    (∀ f, (t.SetEvtCallback f).1 = KNX_BUSCOUPLER_OK ∨
        (t.SetAckCallback f).1 = KNX_BUSCOUPLER_OK → t.IsActive = false) := by
  have hs : ∀ f, (s.SetEvtCallback f).1 = KNX_BUSCOUPLER_OK ∨
      (s.SetAckCallback f).1 = KNX_BUSCOUPLER_OK → s.IsActive = false := by
    intro f h
    have hinit : s._rx.state = .RX_INIT ∧ s._tx.state = .TX_INIT := by
      rcases h with h | h
      · unfold KnxTpUart.SetEvtCallback at h
        split at h
        · simp [KNX_BUSCOUPLER_OK, KNX_BUSCOUPLER_ERROR] at h
        · split at h
          · simp [KNX_BUSCOUPLER_OK, KNX_BUSCOUPLER_ERROR_NOT_INIT_STATE] at h
          · rename_i h2; simpa only [not_or, not_not] using h2
      · unfold KnxTpUart.SetAckCallback at h
        split at h
        · simp [KNX_BUSCOUPLER_OK, KNX_BUSCOUPLER_ERROR] at h
        · split at h
          · simp [KNX_BUSCOUPLER_OK, KNX_BUSCOUPLER_ERROR_NOT_INIT_STATE] at h
          · rename_i h2; simpa only [not_or, not_not] using h2
    simp [KnxTpUart.IsActive, hinit.1, hinit.2, e_BusCouplerRxState.toNat,
      e_BusCouplerTxState.toNat]
  have ht : ∀ f, (t.SetEvtCallback f).1 = KNX_BUSCOUPLER_OK ∨
      (t.SetAckCallback f).1 = KNX_BUSCOUPLER_OK → t.IsActive = false := by
    intro f h
    have hinit : t._rx.state = .RX_INIT ∧ t._tx.state = .TX_INIT := by
      rcases h with h | h
      · unfold StKnxCoupler.SetEvtCallback at h
        split at h
        · simp [KNX_BUSCOUPLER_OK, KNX_BUSCOUPLER_ERROR] at h
        · split at h
          · simp [KNX_BUSCOUPLER_OK, KNX_BUSCOUPLER_ERROR_NOT_INIT_STATE] at h
          · rename_i h2; simpa only [not_or, not_not] using h2
      · unfold StKnxCoupler.SetAckCallback at h
        split at h
        · simp [KNX_BUSCOUPLER_OK, KNX_BUSCOUPLER_ERROR] at h
        · split at h
          · simp [KNX_BUSCOUPLER_OK, KNX_BUSCOUPLER_ERROR_NOT_INIT_STATE] at h
          · rename_i h2; simpa only [not_or, not_not] using h2
    simp [StKnxCoupler.IsActive, hinit.1, hinit.2, e_BusCouplerRxState.toNat,
      e_BusCouplerTxState.toNat]
  refine ⟨fun hact f => ⟨fun h => ?_, fun h => ?_⟩, hs, fun hact f => ⟨fun h => ?_, fun h => ?_⟩,
    ht⟩
  · rw [hs f (Or.inl h)] at hact; exact absurd hact (by decide)
  · rw [hs f (Or.inr h)] at hact; exact absurd hact (by decide)
  · rw [ht f (Or.inl h)] at hact; exact absurd hact (by decide)
  · rw [ht f (Or.inr h)] at hact; exact absurd hact (by decide)

/-- Witness of C15: the engine after a completed send is active (tx `TX_WAITING_ACK`) and the
registration of the callback at address 1000 is rejected; an object in the init state accepts
it and is not active. -/
theorem C15_no_registration_while_active_witness :
    (engineAfterSend.dev.IsActive = true ∧
      (engineAfterSend.dev.SetEvtCallback 1000).1 ≠ KNX_BUSCOUPLER_OK ∧
      (engineAfterSend.dev.SetAckCallback 1000).1 ≠ KNX_BUSCOUPLER_OK) ∧
    (((stKnxIn .RX_INIT .TX_INIT).SetEvtCallback 1000).1 = KNX_BUSCOUPLER_OK ∧
      (stKnxIn .RX_INIT .TX_INIT).IsActive = false) :=
  ⟨⟨by decide,
      (C15_no_registration_while_active engineAfterSend.dev (stKnxIn .RX_INIT .TX_INIT)).1
        (by decide) 1000⟩,
    by decide,
    (C15_no_registration_while_active engineAfterSend.dev (stKnxIn .RX_INIT .TX_INIT)).2.2.2
      1000 (Or.inl (by decide))⟩

end KnxDevice
